import Mathlib

/-!
Verification of the `beckn` HTTP-signature package (BuildSignature /
VerifySignature / parseAuthorization) against its specification.

Strings are modelled as `List Char` (`Str`), byte slices as `List Nat`
(each element a byte value).  The Go standard-library string helpers used
by the package (`strings.Split`, `strings.TrimSpace`, `strings.Trim`,
`strings.SplitN`, `strings.HasPrefix`, `strings.TrimPrefix`) are given
direct executable models below.  The cryptographic primitives taken from
Go's standard library (`crypto/sha256`, `crypto/ed25519`,
`encoding/base64`) are modelled by a parameter structure `CryptoPrims`
for the generic theorems, together with a concrete executable
implementation (`realCrypto`) of SHA-256, SHA-512 and Ed25519 used for
the byte-exact test-vector claim.
-/

namespace ONDC

abbrev Str := List Char

def str (s : String) : Str := s.data

/-- Newline character used by the signing string. -/
def nl : Char := Char.ofNat 10

/-- Double-quote character. -/
def dq : Char := Char.ofNat 34

/-! ## Go string helpers -/

/-- `strings.HasPrefix pre s` (arguments: prefix first). -/
def strStarts : Str → Str → Bool
  | [], _ => true
  | _ :: _, [] => false
  | p :: ps, c :: cs => p = c && strStarts ps cs

/-- `strings.TrimPrefix s pre` (drops `pre` when it heads `s`). -/
def dropStart (pre s : Str) : Str :=
  if strStarts pre s then s.drop pre.length else s

/-- The whitespace class used by `strings.TrimSpace` (ASCII part plus the
two Latin-1 spaces; all strings handled by the package are ASCII). -/
def isSpaceCh (c : Char) : Bool :=
  let n := c.toNat
  n = 32 || (9 ≤ n && n ≤ 13) || n = 133 || n = 160

def trimLeftWhile (p : Char → Bool) (s : Str) : Str := s.dropWhile p

def trimRightWhile (p : Char → Bool) (s : Str) : Str :=
  (s.reverse.dropWhile p).reverse

/-- `strings.TrimSpace`. -/
def trimSpace (s : Str) : Str := trimRightWhile isSpaceCh (trimLeftWhile isSpaceCh s)

/-- `strings.Trim s "\""`. -/
def trimQuotes (s : Str) : Str :=
  trimRightWhile (fun c => c = dq) (trimLeftWhile (fun c => c = dq) s)

/-- `strings.Split s sep` for a one-character separator. -/
def splitChar (c : Char) : Str → List Str
  | [] => [[]]
  | x :: xs =>
    let r := splitChar c xs
    if x = c then [] :: r else (x :: r.headD []) :: r.tail

/-- `strings.SplitN s sep 2` for a one-character separator: the pieces on
either side of the first occurrence, or `none` when the separator is
absent (Go then returns a one-element slice). -/
def breakAtFirst (c : Char) : Str → Option (Str × Str)
  | [] => none
  | x :: xs =>
    if x = c then some ([], xs)
    else match breakAtFirst c xs with
      | none => none
      | some (a, b) => some (x :: a, b)

/-! ## Go map reads

`parseAuthorization` fills a `map[string]string`; a later assignment to
the same key overwrites the earlier one, and reading an absent key gives
`""`.  The bindings are kept in insertion order and a read returns the
last binding. -/

def containsKey : List (Str × Str) → Str → Bool
  | [], _ => false
  | (k, _) :: rest, key => k = key || containsKey rest key

def lookupLast : List (Str × Str) → Str → Str
  | [], _ => []
  | (k, v) :: rest, key =>
    if containsKey rest key then lookupLast rest key
    else if k = key then v else []

/-! ## Decimal formatting and parsing

`intRepr` models `fmt.Sprintf("%d", n)` on an `int64`; `parseInt` models
`strconv.ParseInt(s, 10, 64)` (optional sign, decimal digits, 64-bit
range check; error messages are simplified). -/

def digitChar (n : Nat) : Char := Char.ofNat (48 + n)

def isDigitCh (c : Char) : Bool := 48 ≤ c.toNat && c.toNat ≤ 57

def natReprAux : Nat → Nat → Str
  | 0, n => [digitChar (n % 10)]
  | fuel + 1, n =>
    if n < 10 then [digitChar n]
    else natReprAux fuel (n / 10) ++ [digitChar (n % 10)]

def natRepr (n : Nat) : Str := natReprAux n n

def intRepr (n : Int) : Str :=
  if n < 0 then '-' :: natRepr n.natAbs else natRepr n.natAbs

def parseNatAux : Nat → Str → Option Nat
  | acc, [] => some acc
  | acc, c :: cs =>
    if isDigitCh c then parseNatAux (acc * 10 + (c.toNat - 48)) cs else none

def parseInt (s : Str) : Except Str Int :=
  match s with
  | [] => .error (str "invalid syntax")
  | c :: rest =>
    let neg : Bool := c = '-'
    let digits : Str := if c = '-' || c = '+' then rest else s
    match digits with
    | [] => .error (str "invalid syntax")
    | _ :: _ =>
      match parseNatAux 0 digits with
      | none => .error (str "invalid syntax")
      | some n =>
        if neg then
          if n > 2 ^ 63 then .error (str "value out of range")
          else .ok (-(n : Int))
        else
          if n ≥ 2 ^ 63 then .error (str "value out of range")
          else .ok (n : Int)

/-! ## Standard base64 (`encoding/base64.StdEncoding`)

Padded, standard alphabet.  The decoder mirrors `DecodeString`: carriage
returns and newlines are ignored, any other non-alphabet character and
any mis-placed padding is an error. -/

def b64Alphabet : Str :=
  str "ABCDEFGHIJKLMNOPQRSTUVWXYZabcdefghijklmnopqrstuvwxyz0123456789+/"

def b64Char (n : Nat) : Char := b64Alphabet.getD n 'A'

def b64ValAux : Str → Nat → Char → Option Nat
  | [], _, _ => none
  | a :: as, i, c => if a = c then some i else b64ValAux as (i + 1) c

def b64Val (c : Char) : Option Nat := b64ValAux b64Alphabet 0 c

def b64encode : List Nat → Str
  | [] => []
  | [b1] => [b64Char (b1 / 4), b64Char (b1 % 4 * 16), '=', '=']
  | [b1, b2] => [b64Char (b1 / 4), b64Char (b1 % 4 * 16 + b2 / 16), b64Char (b2 % 16 * 4), '=']
  | b1 :: b2 :: b3 :: rest =>
    b64Char (b1 / 4) :: b64Char (b1 % 4 * 16 + b2 / 16) ::
    b64Char (b2 % 16 * 4 + b3 / 64) :: b64Char (b3 % 64) :: b64encode rest

def b64Filter (s : Str) : Str :=
  s.filter (fun c => !(c.toNat = 13 || c.toNat = 10))

def b64decodeGroups : Str → Except Str (List Nat)
  | [] => .ok []
  | c1 :: c2 :: c3 :: c4 :: rest =>
    match b64Val c1, b64Val c2 with
    | some v1, some v2 =>
      if c3 = '=' then
        if c4 = '=' && rest.isEmpty then .ok [v1 * 4 + v2 / 16]
        else .error (str "illegal base64 data")
      else
        match b64Val c3 with
        | some v3 =>
          if c4 = '=' then
            if rest.isEmpty then .ok [v1 * 4 + v2 / 16, v2 % 16 * 16 + v3 / 4]
            else .error (str "illegal base64 data")
          else
            match b64Val c4 with
            | some v4 =>
              match b64decodeGroups rest with
              | .error e => .error e
              | .ok r => .ok ((v1 * 4 + v2 / 16) :: (v2 % 16 * 16 + v3 / 4) :: (v3 % 4 * 64 + v4) :: r)
            | none => .error (str "illegal base64 data")
        | none => .error (str "illegal base64 data")
    | _, _ => .error (str "illegal base64 data")
  | _ => .error (str "illegal base64 data")

def b64decode (s : Str) : Except Str (List Nat) := b64decodeGroups (b64Filter s)

/-! ## UTF-8 bytes of a string (`[]byte(s)` in Go) -/

def utf8Char (c : Char) : List Nat :=
  let n := c.toNat
  if n < 128 then [n]
  else if n < 2048 then [192 + n / 64, 128 + n % 64]
  else if n < 65536 then [224 + n / 4096, 128 + n / 64 % 64, 128 + n % 64]
  else [240 + n / 262144, 128 + n / 4096 % 64, 128 + n / 64 % 64, 128 + n % 64]

def strBytes : Str → List Nat
  | [] => []
  | c :: cs => utf8Char c ++ strBytes cs

/-! ## The signature package

`CryptoPrims` packages the primitives the Go code takes from
`crypto/sha256` and `crypto/ed25519`:

* `sha256`: the hash of a byte slice (32 bytes);
* `edSign priv msg`: `ed25519.Sign` on a 64-byte private key;
* `edPubFromSeed seed`: the public half derived from a 32-byte seed
  (`ed25519.NewKeyFromSeed(seed).Public()`);
* `edVerify pub msg sig`: `ed25519.Verify`.

Go represents an Ed25519 private key as `seed ‖ publicKey`, so
`ed25519.NewKeyFromSeed` is `seed ++ edPubFromSeed seed` and
`priv.Public()` is `priv[32:]`. -/

structure CryptoPrims where
  sha256 : List Nat → List Nat
  edSign : List Nat → List Nat → List Nat
  edPubFromSeed : List Nat → List Nat
  edVerify : List Nat → List Nat → List Nat → Bool

/-- `ed25519.NewKeyFromSeed` (Go layout: seed followed by public key). -/
def edNewKeyFromSeed (c : CryptoPrims) (seed : List Nat) : List Nat :=
  seed ++ c.edPubFromSeed seed

/-- The public half of Ed25519 private-key material supplied either as a
32-byte seed or as a 64-byte full key (the claims' `publicKeyOf`). -/
def publicKeyOf (c : CryptoPrims) (pkBytes : List Nat) : List Nat :=
  if pkBytes.length = 32 then c.edPubFromSeed pkBytes else pkBytes.drop 32

/-- The private key `BuildSignature` signs with, given the decoded key
material (32-byte seed or 64-byte full key). -/
def buildPrivKey (c : CryptoPrims) (pkBytes : List Nat) : List Nat :=
  if pkBytes.length = 32 then edNewKeyFromSeed c pkBytes else pkBytes

/-- The `Signature` struct: the two header values. -/
structure Signature where
  Authorization : Str
  Digest : Str
deriving DecidableEq, Repr

/-- `VerificationOptions`.  `Now : Option Int` models the nilable
`func() int64` field: the claims always install a constant function. -/
structure VerificationOptions where
  ExpectedKeyID : Str
  Now : Option Int

/-- The signing string, as the Go code formats it on both the sign path
(line 66) and the verify path (line 149):
`fmt.Sprintf("(created): %d\n(expires): %d\ndigest: %s", created, expires, digest)`. -/
def signingStringFmt (created expires : Int) (digest : Str) : Str :=
  str "(created): " ++ intRepr created ++ nl :: str "(expires): " ++ intRepr expires
    ++ nl :: str "digest: " ++ digest

/-- The Authorization header value, as `BuildSignature` formats it. -/
def authFmt (keyID : Str) (created expires : Int) (encodedSig : Str) : Str :=
  str "Signature keyId=\"" ++ keyID ++ str "\", algorithm=\"ed25519\", created=\""
    ++ intRepr created ++ str "\", expires=\"" ++ intRepr expires
    ++ str "\", headers=\"(created) (expires) digest\", signature=\"" ++ encodedSig ++ [dq]

/-- `BuildSignature(body, keyID, privateKeyBase64, created, expires)`. -/
def BuildSignature (c : CryptoPrims) (body : List Nat) (keyID privateKeyBase64 : Str)
    (created expires : Int) : Except Str Signature :=
  if keyID = [] then .error (str "keyID is required for signature")
  else if created ≤ 0 ∨ expires ≤ 0 ∨ expires ≤ created then
    .error (str "created and expires must be positive with expires > created")
  else
    let digest := str "SHA-256=" ++ b64encode (c.sha256 body)
    match b64decode privateKeyBase64 with
    | .error e => .error (str "decode private key: " ++ e)
    | .ok pkBytes =>
      match (if pkBytes.length = 32 then .ok (edNewKeyFromSeed c pkBytes)
             else if pkBytes.length = 64 then .ok pkBytes
             else .error (str "unexpected private key length: " ++ natRepr pkBytes.length) :
             Except Str (List Nat)) with
      | .error e => .error e
      | .ok privateKey =>
        let signingString := signingStringFmt created expires digest
        let signature := c.edSign privateKey (strBytes signingString)
        .ok ⟨authFmt keyID created expires (b64encode signature), digest⟩

/-- The parameter loop of `parseAuthorization`: each comma-separated
piece is trimmed, split at its first `=`, and its value unquoted; a piece
with no `=` is an error. -/
def parseParamsLoop : List Str → Except Str (List (Str × Str))
  | [] => .ok []
  | param :: rest =>
    match breakAtFirst '=' (trimSpace param) with
    | none => .error (str "invalid param: " ++ param)
    | some (k, v) =>
      match parseParamsLoop rest with
      | .error e => .error e
      | .ok r => .ok ((k, trimQuotes v) :: r)

def requiredKeys : List Str :=
  [str "keyId", str "algorithm", str "created", str "expires", str "headers", str "signature"]

def checkRequired (result : List (Str × Str)) : List Str → Except Str Unit
  | [] => .ok ()
  | k :: ks =>
    if lookupLast result k = [] then .error (str "missing " ++ k ++ str " in authorization")
    else checkRequired result ks

/-- `parseAuthorization`. -/
def parseAuthorization (auth : Str) : Except Str (List (Str × Str)) :=
  if !strStarts (str "Signature ") auth then
    .error (str "unexpected scheme in authorization: " ++ auth)
  else
    match parseParamsLoop (splitChar ',' (dropStart (str "Signature ") auth)) with
    | .error e => .error e
    | .ok result =>
      match checkRequired result requiredKeys with
      | .error e => .error e
      | .ok _ => .ok result

/-- The `switch keyLen` of `VerifySignature` (lines 137–147): accept a
32-byte public key directly or take the public half of a 64-byte private
key; any other length is an error. -/
def pickPublicKey (publicKeyBytes : List Nat) : Except Str (List Nat) :=
  if publicKeyBytes.length = 32 then .ok publicKeyBytes
  else if publicKeyBytes.length = 64 then .ok (publicKeyBytes.drop 32)
  else .error (str "unexpected public key length: " ++ natRepr publicKeyBytes.length)

/-- Lines 132–168 of `VerifySignature`: decode the key material, build
the signing string from the received digest header, decode the signature
parameter, verify, and on failure of a 32-byte key retry once treating
it as a seed. -/
def verifyKeyStage (c : CryptoPrims) (publicKeyBase64 signingString sigB64 : Str) :
    Except Str Unit :=
  match b64decode publicKeyBase64 with
  | .error e => .error (str "decode public key: " ++ e)
  | .ok publicKeyBytes =>
    match pickPublicKey publicKeyBytes with
    | .error e => .error e
    | .ok publicKey =>
      match b64decode sigB64 with
      | .error e => .error (str "decode signature: " ++ e)
      | .ok signatureBytes =>
        if c.edVerify publicKey (strBytes signingString) signatureBytes then .ok ()
        else if publicKeyBytes.length = 32
            && c.edVerify (c.edPubFromSeed publicKeyBytes) (strBytes signingString) signatureBytes
          then .ok ()
        else .error (str "signature verification failed")

/-- Lines 113–168 of `VerifySignature`: parse the `created`/`expires`
parameters as base-10 integers, enforce the `[created, expires]` window
against `now`, then run the key/signature stage on the signing string
rebuilt from the received digest header. -/
def verifyTail (c : CryptoPrims) (now : Int) (digestHeader createdS expiresS sigB64
    publicKeyBase64 : Str) : Except Str Unit :=
  match parseInt createdS with
  | .error e => .error (str "invalid created timestamp: " ++ e)
  | .ok created =>
    match parseInt expiresS with
    | .error e => .error (str "invalid expires timestamp: " ++ e)
    | .ok expires =>
      if now < created then
        .error (str "signature not yet valid: created " ++ intRepr created
          ++ str " > now " ++ intRepr now)
      else if now > expires then
        .error (str "signature expired: expires " ++ intRepr expires
          ++ str " < now " ++ intRepr now)
      else
        verifyKeyStage c publicKeyBase64
          (signingStringFmt created expires digestHeader) sigB64

/-- `VerifySignature(body, digestHeader, authorizationHeader,
publicKeyBase64, opts)`.  `sysNow` models `time.Now().Unix()`, consulted
only when `opts.Now` is nil. -/
def VerifySignature (c : CryptoPrims) (sysNow : Int) (body : List Nat)
    (digestHeader authorizationHeader publicKeyBase64 : Str)
    (opts : VerificationOptions) : Except Str Unit :=
  if authorizationHeader = [] then .error (str "missing Authorization header")
  else if digestHeader = [] then .error (str "missing Digest header")
  else if publicKeyBase64 = [] then .error (str "public key is required for verification")
  else
    match parseAuthorization authorizationHeader with
    | .error e => .error e
    | .ok params =>
      if opts.ExpectedKeyID ≠ [] ∧ lookupLast params (str "keyId") ≠ opts.ExpectedKeyID then
        .error (str "unexpected keyId: " ++ lookupLast params (str "keyId"))
      else if lookupLast params (str "algorithm") ≠ str "ed25519" then
        .error (str "unsupported algorithm: " ++ lookupLast params (str "algorithm"))
      else if lookupLast params (str "headers") ≠ str "(created) (expires) digest" then
        .error (str "unexpected headers list: " ++ lookupLast params (str "headers"))
      else
        let expectedDigest := str "SHA-256=" ++ b64encode (c.sha256 body)
        if digestHeader ≠ expectedDigest then
          .error (str "digest mismatch: expected " ++ expectedDigest ++ str ", got "
            ++ digestHeader)
        else
          verifyTail c
            (match opts.Now with
              | some t => t
              | none => sysNow)
            digestHeader
            (lookupLast params (str "created"))
            (lookupLast params (str "expires"))
            (lookupLast params (str "signature"))
            publicKeyBase64

/-- The six parameter bindings produced by parsing a well-formed
Authorization value, in header order. -/
def canonParams (K C E S : Str) : List (Str × Str) :=
  [(str "keyId", K), (str "algorithm", str "ed25519"), (str "created", C),
   (str "expires", E), (str "headers", str "(created) (expires) digest"),
   (str "signature", S)]

/-- The signing string as the specification words it: the three lines
`(created): <int>`, `(expires): <int>`, `digest: <digestValue>` joined by
a newline with no trailing newline. -/
def specSigningString (created expires : Int) (digestValue : Str) : Str :=
  let lines := [str "(created): " ++ intRepr created,
                str "(expires): " ++ intRepr expires,
                str "digest: " ++ digestValue]
  match lines with
  | [] => []
  | l :: ls => l ++ ls.foldr (fun x acc => nl :: x ++ acc) []

/-! ## Concrete SHA-2 and Ed25519

Executable models of the primitives `crypto/sha256`, `crypto/sha512` and
`crypto/ed25519` apply, written so that the kernel can evaluate them on
concrete inputs: every loop is fuel-structural and re-forces its numeric
state to literals each iteration via `withNat`. -/

/-- Strictness helper: `withNat n k = k n`, but scrutinising `n` so that
kernel evaluation reduces `n` to a literal before continuing. -/
def withNat {α : Sort u} (n : Nat) (k : Nat → α) : α :=
  Nat.casesOn n (k 0) fun m => k (m + 1)

def m32 (x : Nat) : Nat := x % 4294967296

def m64 (x : Nat) : Nat := x % 18446744073709551616

def rotr32 (n x : Nat) : Nat := x / 2 ^ n + x % 2 ^ n * 2 ^ (32 - n)

def rotr64 (n x : Nat) : Nat := x / 2 ^ n + x % 2 ^ n * 2 ^ (64 - n)

def xor3 (a b c : Nat) : Nat := Nat.xor (Nat.xor a b) c

/-- Eight-word hash state (works for both SHA-256 and SHA-512). -/
structure H8 where
  a : Nat
  b : Nat
  c : Nat
  d : Nat
  e : Nat
  f : Nat
  g : Nat
  h : Nat

def shaK256 : List Nat :=
  [1116352408, 1899447441, 3049323471, 3921009573,
   961987163, 1508970993, 2453635748, 2870763221,
   3624381080, 310598401, 607225278, 1426881987,
   1925078388, 2162078206, 2614888103, 3248222580,
   3835390401, 4022224774, 264347078, 604807628,
   770255983, 1249150122, 1555081692, 1996064986,
   2554220882, 2821834349, 2952996808, 3210313671,
   3336571891, 3584528711, 113926993, 338241895,
   666307205, 773529912, 1294757372, 1396182291,
   1695183700, 1986661051, 2177026350, 2456956037,
   2730485921, 2820302411, 3259730800, 3345764771,
   3516065817, 3600352804, 4094571909, 275423344,
   430227734, 506948616, 659060556, 883997877,
   958139571, 1322822218, 1537002063, 1747873779,
   1955562222, 2024104815, 2227730452, 2361852424,
   2428436474, 2756734187, 3204031479, 3329325298]

def shaK512 : List Nat :=
  [4794697086780616226, 8158064640168781261, 13096744586834688815, 16840607885511220156,
   4131703408338449720, 6480981068601479193, 10538285296894168987, 12329834152419229976,
   15566598209576043074, 1334009975649890238, 2608012711638119052, 6128411473006802146,
   8268148722764581231, 9286055187155687089, 11230858885718282805, 13951009754708518548,
   16472876342353939154, 17275323862435702243, 1135362057144423861, 2597628984639134821,
   3308224258029322869, 5365058923640841347, 6679025012923562964, 8573033837759648693,
   10970295158949994411, 12119686244451234320, 12683024718118986047, 13788192230050041572,
   14330467153632333762, 15395433587784984357, 489312712824947311, 1452737877330783856,
   2861767655752347644, 3322285676063803686, 5560940570517711597, 5996557281743188959,
   7280758554555802590, 8532644243296465576, 9350256976987008742, 10552545826968843579,
   11727347734174303076, 12113106623233404929, 14000437183269869457, 14369950271660146224,
   15101387698204529176, 15463397548674623760, 17586052441742319658, 1182934255886127544,
   1847814050463011016, 2177327727835720531, 2830643537854262169, 3796741975233480872,
   4115178125766777443, 5681478168544905931, 6601373596472566643, 7507060721942968483,
   8399075790359081724, 8693463985226723168, 9568029438360202098, 10144078919501101548,
   10430055236837252648, 11840083180663258601, 13761210420658862357, 14299343276471374635,
   14566680578165727644, 15097957966210449927, 16922976911328602910, 17689382322260857208,
   500013540394364858, 748580250866718886, 1242879168328830382, 1977374033974150939,
   2944078676154940804, 3659926193048069267, 4368137639120453308, 4836135668995329356,
   5532061633213252278, 6448918945643986474, 6902733635092675308, 7801388544844847127]

def shaH256 : H8 :=
  ⟨1779033703, 3144134277, 1013904242, 2773480762, 1359893119, 2600822924, 528734635,
   1541459225⟩

def shaH512 : H8 :=
  ⟨7640891576956012808, 13503953896175478587, 4354685564936845355, 11912009170470909681,
   5840696475078001361, 11170449401992604703, 2270897969802886507, 6620516959819538809⟩

def be4 (n : Nat) : List Nat := [n / 16777216 % 256, n / 65536 % 256, n / 256 % 256, n % 256]

def be8 (n : Nat) : List Nat :=
  [n / 72057594037927936 % 256, n / 281474976710656 % 256, n / 1099511627776 % 256,
   n / 4294967296 % 256, n / 16777216 % 256, n / 65536 % 256, n / 256 % 256, n % 256]

def toWords32 : List Nat → List Nat
  | b1 :: b2 :: b3 :: b4 :: rest =>
    (b1 * 16777216 + b2 * 65536 + b3 * 256 + b4) :: toWords32 rest
  | _ => []

def toWords64 : List Nat → List Nat
  | b1 :: b2 :: b3 :: b4 :: b5 :: b6 :: b7 :: b8 :: rest =>
    (((((((b1 * 256 + b2) * 256 + b3) * 256 + b4) * 256 + b5) * 256 + b6) * 256 + b7) * 256
      + b8) :: toWords64 rest
  | _ => []

def chunksAux (n : Nat) : Nat → List Nat → List (List Nat)
  | 0, _ => []
  | _, [] => []
  | fuel + 1, l => l.take n :: chunksAux n fuel (l.drop n)

/-- SHA-256 message schedule, extending the reversed word list. -/
def sched256 : Nat → List Nat → List Nat
  | 0, wrev => wrev
  | fuel + 1, wrev =>
    let w2 := wrev.getD 1 0
    let w15 := wrev.getD 14 0
    let s0 := xor3 (rotr32 7 w15) (rotr32 18 w15) (w15 / 8)
    let s1 := xor3 (rotr32 17 w2) (rotr32 19 w2) (w2 / 1024)
    withNat (m32 (wrev.getD 15 0 + s0 + wrev.getD 6 0 + s1)) fun w =>
      sched256 fuel (w :: wrev)

def rounds256 : List Nat → List Nat → H8 → H8
  | [], _, st => st
  | _, [], st => st
  | k :: ks, w :: ws, st =>
    let s1 := xor3 (rotr32 6 st.e) (rotr32 11 st.e) (rotr32 25 st.e)
    let ch := Nat.xor (Nat.land st.e st.f) (Nat.land (4294967295 - st.e) st.g)
    let t1 := m32 (st.h + s1 + ch + k + w)
    let s0 := xor3 (rotr32 2 st.a) (rotr32 13 st.a) (rotr32 22 st.a)
    let mj := xor3 (Nat.land st.a st.b) (Nat.land st.a st.c) (Nat.land st.b st.c)
    let t2 := m32 (s0 + mj)
    withNat (m32 (st.d + t1)) fun e2 =>
      withNat (m32 (t1 + t2)) fun a2 =>
        rounds256 ks ws ⟨a2, st.a, st.b, st.c, e2, st.e, st.f, st.g⟩

def addH8 (x y : H8) (md : Nat → Nat) (k : H8 → α) : α :=
  withNat (md (x.a + y.a)) fun a => withNat (md (x.b + y.b)) fun b =>
  withNat (md (x.c + y.c)) fun c => withNat (md (x.d + y.d)) fun d =>
  withNat (md (x.e + y.e)) fun e => withNat (md (x.f + y.f)) fun f =>
  withNat (md (x.g + y.g)) fun g => withNat (md (x.h + y.h)) fun h =>
    k ⟨a, b, c, d, e, f, g, h⟩

def compress256 (st : H8) (block : List Nat) : H8 :=
  let ws := (sched256 48 (toWords32 block).reverse).reverse
  addH8 st (rounds256 shaK256 ws st) m32 id

def sha256Run (msg : List Nat) : List Nat :=
  let padded := msg ++ 128 :: (List.replicate ((119 - msg.length % 64) % 64) 0
    ++ be8 (8 * msg.length))
  let st := (chunksAux 64 padded.length padded).foldl compress256 shaH256
  be4 st.a ++ be4 st.b ++ be4 st.c ++ be4 st.d ++ be4 st.e ++ be4 st.f ++ be4 st.g ++ be4 st.h

/-- SHA-512 message schedule. -/
def sched512 : Nat → List Nat → List Nat
  | 0, wrev => wrev
  | fuel + 1, wrev =>
    let w2 := wrev.getD 1 0
    let w15 := wrev.getD 14 0
    let s0 := xor3 (rotr64 1 w15) (rotr64 8 w15) (w15 / 128)
    let s1 := xor3 (rotr64 19 w2) (rotr64 61 w2) (w2 / 64)
    withNat (m64 (wrev.getD 15 0 + s0 + wrev.getD 6 0 + s1)) fun w =>
      sched512 fuel (w :: wrev)

def rounds512 : List Nat → List Nat → H8 → H8
  | [], _, st => st
  | _, [], st => st
  | k :: ks, w :: ws, st =>
    let s1 := xor3 (rotr64 14 st.e) (rotr64 18 st.e) (rotr64 41 st.e)
    let ch := Nat.xor (Nat.land st.e st.f) (Nat.land (18446744073709551615 - st.e) st.g)
    let t1 := m64 (st.h + s1 + ch + k + w)
    let s0 := xor3 (rotr64 28 st.a) (rotr64 34 st.a) (rotr64 39 st.a)
    let mj := xor3 (Nat.land st.a st.b) (Nat.land st.a st.c) (Nat.land st.b st.c)
    let t2 := m64 (s0 + mj)
    withNat (m64 (st.d + t1)) fun e2 =>
      withNat (m64 (t1 + t2)) fun a2 =>
        rounds512 ks ws ⟨a2, st.a, st.b, st.c, e2, st.e, st.f, st.g⟩

def compress512 (st : H8) (block : List Nat) : H8 :=
  let ws := (sched512 64 (toWords64 block).reverse).reverse
  addH8 st (rounds512 shaK512 ws st) m64 id

def sha512Run (msg : List Nat) : List Nat :=
  let padded := msg ++ 128 :: (List.replicate ((239 - msg.length % 128) % 128) 0
    ++ ([0, 0, 0, 0, 0, 0, 0, 0] ++ be8 (8 * msg.length)))
  let st := (chunksAux 128 padded.length padded).foldl compress512 shaH512
  be8 st.a ++ be8 st.b ++ be8 st.c ++ be8 st.d ++ be8 st.e ++ be8 st.f ++ be8 st.g ++ be8 st.h

/-! ### Ed25519 (RFC 8032) over GF(2^255 − 19) -/

def edP : Nat := 2 ^ 255 - 19

def fadd (a b : Nat) : Nat := (a + b) % edP

def fsub (a b : Nat) : Nat := (a + edP - b) % edP

def fmul (a b : Nat) : Nat := a * b % edP

/-- The curve constant d = −121665/121666. -/
def edD : Nat := 37095705934669439343138083508754565189542113879843219016388785533085940283555

/-- A point in extended twisted-Edwards coordinates. -/
structure Pt where
  X : Nat
  Y : Nat
  Z : Nat
  T : Nat
deriving DecidableEq

def padd (P Q : Pt) : Pt :=
  let A := fmul (fsub P.Y P.X) (fsub Q.Y Q.X)
  let B := fmul (fadd P.Y P.X) (fadd Q.Y Q.X)
  let C := fmul (fmul 2 (fmul P.T Q.T)) edD
  let D := fmul 2 (fmul P.Z Q.Z)
  let E := fsub B A
  let F := fsub D C
  let G := fadd D C
  let H := fadd B A
  ⟨fmul E F, fmul G H, fmul F G, fmul E H⟩

def pdouble (P : Pt) : Pt :=
  let A := fmul P.X P.X
  let B := fmul P.Y P.Y
  let C := fmul 2 (fmul P.Z P.Z)
  let H := fadd A B
  let E := fsub H (fmul (fadd P.X P.Y) (fadd P.X P.Y))
  let G := fsub A B
  let F := fadd C G
  ⟨fmul E F, fmul G H, fmul F G, fmul E H⟩

def pneg (P : Pt) : Pt := ⟨(edP - P.X) % edP, P.Y, P.Z, (edP - P.T) % edP⟩

def pzero : Pt := ⟨0, 1, 1, 0⟩

def smulAux : Nat → Nat → Pt → Pt → Pt
  | 0, _, _, acc => acc
  | fuel + 1, s, P, acc =>
    if s = 0 then acc
    else
      let P2 := pdouble P
      let acc2 := if s % 2 = 1 then padd acc P else acc
      withNat P2.X fun px => withNat P2.Y fun py =>
      withNat P2.Z fun pz => withNat P2.T fun pt =>
      withNat acc2.X fun ax => withNat acc2.Y fun ay =>
      withNat acc2.Z fun az => withNat acc2.T fun aT =>
        smulAux fuel (s / 2) ⟨px, py, pz, pt⟩ ⟨ax, ay, az, aT⟩

def smul (s : Nat) (P : Pt) : Pt := smulAux 256 s P pzero

def edBx : Nat := 15112221349535400772501151409588531511454012693041857206046113283949847762202

def edBy : Nat := 46316835694926478169428394003475163141307993866256225615783033603165251855960

/-- The Ed25519 base point. -/
def edB : Pt := ⟨edBx, edBy, 1, edBx * edBy % edP⟩

def powModAux : Nat → Nat → Nat → Nat → Nat
  | 0, _, _, acc => acc
  | fuel + 1, b, e, acc =>
    if e = 0 then acc
    else
      let acc2 := if e % 2 = 1 then fmul acc b else acc
      let b2 := fmul b b
      withNat acc2 fun a => withNat b2 fun bb => powModAux fuel bb (e / 2) a

def finv (a : Nat) : Nat := powModAux 256 a (edP - 2) 1

/-- Compressed encoding of a point: little-endian y with the parity of x
in the top bit. -/
def compressPt (P : Pt) : Nat :=
  let zinv := finv P.Z
  let x := fmul P.X zinv
  let y := fmul P.Y zinv
  y + x % 2 * 2 ^ 255

def leBytes : Nat → Nat → List Nat
  | 0, _ => []
  | k + 1, n => n % 256 :: leBytes k (n / 256)

def leVal : List Nat → Nat
  | [] => 0
  | b :: rest => b + 256 * leVal rest

def compressBytes (P : Pt) : List Nat := leBytes 32 (compressPt P)

/-- Clamping of the first SHA-512 half of the seed: clear the low three
bits and bit 255, set bit 254. -/
def clampScalar (n : Nat) : Nat := 8 * (n / 8) % 2 ^ 254 + 2 ^ 254

/-- The group order l = 2^252 + 27742317777372353535851937790883648493. -/
def edL : Nat := 7237005577332262213973186563042994240857116359379907606001950938285454250989

/-- `ed25519.NewKeyFromSeed(seed).Public()`: clamped scalar times the
base point, compressed. -/
def edPubFromSeedRun (seed : List Nat) : List Nat :=
  let h := sha512Run seed
  compressBytes (smul (clampScalar (leVal (h.take 32))) edB)

/-- `ed25519.Sign(priv, msg)` for a 64-byte `priv = seed ‖ publicKey`. -/
def edSignRun (priv msg : List Nat) : List Nat :=
  let seed := priv.take 32
  let pubB := priv.drop 32
  let h := sha512Run seed
  let a := clampScalar (leVal (h.take 32))
  let r := leVal (sha512Run (h.drop 32 ++ msg)) % edL
  let Rb := compressBytes (smul r edB)
  let k := leVal (sha512Run (Rb ++ pubB ++ msg)) % edL
  Rb ++ leBytes 32 ((r + k * a) % edL)

/-- √−1 in GF(edP), used by point decompression. -/
def sqrtM1 : Nat := powModAux 256 2 ((edP - 1) / 4) 1

/-- Decompression of a 32-byte point encoding (RFC 8032 §5.1.3). -/
def decompressPt (bs : List Nat) : Option Pt :=
  let n := leVal bs
  let y := n % 2 ^ 255
  let sign := n / 2 ^ 255
  if y ≥ edP then none
  else
    let u := fsub (fmul y y) 1
    let v := fadd (fmul edD (fmul y y)) 1
    let cand := fmul (fmul u (powModAux 256 v 3 1)) (powModAux 256 (fmul u (powModAux 256 v 7 1)) ((edP - 5) / 8) 1)
    let x0 :=
      if fmul v (fmul cand cand) = u then some cand
      else if fmul v (fmul cand cand) = (edP - u) % edP then some (fmul cand sqrtM1)
      else none
    match x0 with
    | none => none
    | some x1 =>
      if x1 = 0 ∧ sign = 1 then none
      else
        let x2 := if x1 % 2 ≠ sign then edP - x1 else x1
        some ⟨x2, y, 1, fmul x2 y⟩

/-- `ed25519.Verify(pub, msg, sig)`: reject malformed sizes, a
non-canonical S, or an undecodable public key, then check that the
encoding of [S]B − [k]A equals the R half of the signature. -/
def edVerifyRun (pub msg sig : List Nat) : Bool :=
  if pub.length ≠ 32 ∨ sig.length ≠ 64 then false
  else
    match decompressPt pub with
    | none => false
    | some A =>
      let Rb := sig.take 32
      let S := leVal (sig.drop 32)
      if S ≥ edL then false
      else
        let k := leVal (sha512Run (Rb ++ pub ++ msg)) % edL
        compressBytes (padd (smul S edB) (smul k (pneg A))) == Rb

/-- The concrete primitives, assembled. -/
def realCrypto : CryptoPrims :=
  ⟨sha256Run, edSignRun, edPubFromSeedRun, edVerifyRun⟩

/-! ### Cheap instances used to exercise the control flow

The generic theorems quantify over `CryptoPrims`; these two instances
(identical except that one's `edVerify` accepts everything and the
other's rejects everything) instantiate them on concrete inputs. -/

def cVerTrue : CryptoPrims :=
  ⟨fun _ => [0], fun _ _ => List.replicate 64 0, fun _ => List.replicate 32 0,
   fun _ _ _ => true⟩

def cVerFalse : CryptoPrims :=
  ⟨fun _ => [0], fun _ _ => List.replicate 64 0, fun _ => List.replicate 32 0,
   fun _ _ _ => false⟩

/-! ### The spec's example scenario inputs -/

/-- The example seed, base64. -/
def exampleSeedB64 : Str := str "E+VvA+Y1jC8hdhXpVJPz9gY3Y/8+mWQPXgBflOHP+GM="

/-- The example body `{"hello":"world"}` as bytes. -/
def exampleBody : List Nat := strBytes (str "\x7b\"hello\":\"world\"\x7d")

/-- The example key id. -/
def exampleKeyID : Str := str "example-bap|1|ed25519"

/-- The Digest value the spec quotes for the example. -/
def exampleDigest : Str := str "SHA-256=k6I5cakU5erL8KjSUVTNownDwccvu5kU1Hxg88toFYg="

/-- The Authorization value the spec quotes for the example. -/
def exampleAuth : Str :=
  str "Signature keyId=\"example-bap|1|ed25519\", algorithm=\"ed25519\", created=\"1700000000\", expires=\"1700000600\", headers=\"(created) (expires) digest\", signature=\"StzF1tlqpDNmXLRyzVTNS1Gxsix5BZiMDhDr6Ki57z7ZyhWifbI2b8WZgJhlERWzp6v3oEeUG3Be6/07GOhYBw==\""

deriving instance DecidableEq for Except

/-! ## Lemmas: evaluation helpers and Go string operations -/

theorem withNat_eq {α : Sort u} (n : Nat) (k : Nat → α) : withNat n k = k n := by
  cases n <;> rfl

theorem strStarts_self_append (p rest : Str) : strStarts p (p ++ rest) = true := by
  induction p with
  | nil => rfl
  | cons c cs ih => simpa [strStarts] using ih

theorem dropStart_self_append (p rest : Str) : dropStart p (p ++ rest) = rest := by
  simp [dropStart, strStarts_self_append]

theorem splitChar_not_mem {c : Char} {s : Str} (h : c ∉ s) : splitChar c s = [s] := by
  induction s with
  | nil => rfl
  | cons x xs ih =>
    simp only [List.mem_cons, not_or] at h
    simp [splitChar, ih h.2, Ne.symm h.1]

theorem splitChar_append {c : Char} {a : Str} (b : Str) (h : c ∉ a) :
    splitChar c (a ++ c :: b) = a :: splitChar c b := by
  induction a with
  | nil => simp [splitChar]
  | cons x xs ih =>
    simp only [List.mem_cons, not_or] at h
    simp [splitChar, ih h.2, Ne.symm h.1]

theorem dropWhile_eq_self_of_all {p : Char → Bool} {l : Str}
    (h : ∀ x ∈ l, p x = false) : l.dropWhile p = l := by
  cases l with
  | nil => rfl
  | cons x xs => simp [List.dropWhile, h x (by simp)]

theorem trimLeftWhile_cons_false {p : Char → Bool} {c : Char} (h : p c = false) (s : Str) :
    trimLeftWhile p (c :: s) = c :: s := by
  simp [trimLeftWhile, List.dropWhile, h]

theorem trimLeftWhile_cons_true {p : Char → Bool} {c : Char} (h : p c = true) (s : Str) :
    trimLeftWhile p (c :: s) = trimLeftWhile p s := by
  simp [trimLeftWhile, List.dropWhile, h]

theorem trimRightWhile_append_false {p : Char → Bool} {d : Char} (h : p d = false) (s : Str) :
    trimRightWhile p (s ++ [d]) = s ++ [d] := by
  simp [trimRightWhile, List.dropWhile, h]

theorem trimSpace_of_ends {c d : Char} (s : Str) (hc : isSpaceCh c = false)
    (hd : isSpaceCh d = false) : trimSpace (c :: s ++ [d]) = c :: s ++ [d] := by
  have h1 : trimLeftWhile isSpaceCh (c :: s ++ [d]) = c :: s ++ [d] :=
    trimLeftWhile_cons_false hc _
  have h2 : trimRightWhile isSpaceCh ((c :: s) ++ [d]) = (c :: s) ++ [d] :=
    trimRightWhile_append_false hd _
  simp only [trimSpace, h1]
  simpa using h2

theorem trimSpace_cons_space (s : Str) : trimSpace (' ' :: s) = trimSpace s := by
  simp [trimSpace, trimLeftWhile_cons_true (by decide : isSpaceCh ' ' = true)]

theorem trimQuotes_wrap {v : Str} (hne : v ≠ []) (hq : dq ∉ v) :
    trimQuotes (dq :: v ++ [dq]) = v := by
  obtain ⟨h, t, rfl⟩ := List.exists_cons_of_ne_nil hne
  have hh : h ≠ dq := by
    intro e
    exact hq (by simp [e])
  have step1 : trimLeftWhile (fun c => c = dq) (dq :: (h :: t) ++ [dq]) =
      (h :: t) ++ [dq] := by
    rw [show (dq :: (h :: t) ++ [dq]) = dq :: ((h :: t) ++ [dq]) from rfl]
    rw [trimLeftWhile_cons_true (by simp)]
    exact trimLeftWhile_cons_false (by simp [hh]) _
  have step2 : trimRightWhile (fun c => c = dq) ((h :: t) ++ [dq]) = h :: t := by
    have hall : List.dropWhile (fun c => decide (c = dq)) (t.reverse ++ [h]) =
        t.reverse ++ [h] := by
      apply dropWhile_eq_self_of_all
      intro x hx
      have hxm : x ∈ h :: t := by
        simp only [List.mem_append, List.mem_reverse, List.mem_singleton] at hx
        rcases hx with hx | hx
        · exact List.mem_cons_of_mem _ hx
        · simp [hx]
      have hxne : x ≠ dq := by
        intro e
        subst e
        exact hq hxm
      simp [hxne]
    simp [trimRightWhile, List.dropWhile_cons, hall]
  simp only [trimQuotes]
  rw [step1, step2]

theorem breakAtFirst_append {c : Char} {k : Str} (rest : Str) (h : c ∉ k) :
    breakAtFirst c (k ++ c :: rest) = some (k, rest) := by
  induction k with
  | nil => simp [breakAtFirst]
  | cons x xs ih =>
    simp only [List.mem_cons, not_or] at h
    simp [breakAtFirst, ih h.2, Ne.symm h.1]

/-! ## Lemmas: decimal formatting round-trips through parsing -/

theorem digitChar_isDigit : ∀ n, n < 10 → isDigitCh (digitChar n) = true := by decide

theorem digitChar_toNat : ∀ n, n < 10 → (digitChar n).toNat = 48 + n := by decide

theorem natReprAux_all_digits (fuel : Nat) :
    ∀ n, ∀ c ∈ natReprAux fuel n, isDigitCh c = true := by
  induction fuel with
  | zero =>
    intro n c hc
    simp only [natReprAux, List.mem_singleton] at hc
    subst hc
    exact digitChar_isDigit _ (Nat.mod_lt _ (by norm_num))
  | succ fuel ih =>
    intro n c hc
    by_cases h : n < 10
    · simp only [natReprAux, if_pos h, List.mem_singleton] at hc
      subst hc
      exact digitChar_isDigit _ h
    · simp only [natReprAux, if_neg h, List.mem_append, List.mem_singleton] at hc
      rcases hc with hc | hc
      · exact ih _ c hc
      · subst hc
        exact digitChar_isDigit _ (Nat.mod_lt _ (by norm_num))

theorem natReprAux_ne_nil (fuel n : Nat) : natReprAux fuel n ≠ [] := by
  cases fuel with
  | zero => simp [natReprAux]
  | succ fuel =>
    by_cases h : n < 10 <;> simp [natReprAux, h]

theorem parseNatAux_append (acc : Nat) (xs ys : Str) :
    parseNatAux acc (xs ++ ys) =
      match parseNatAux acc xs with
      | some v => parseNatAux v ys
      | none => none := by
  induction xs generalizing acc with
  | nil => simp [parseNatAux]
  | cons c cs ih =>
    by_cases h : isDigitCh c
    · simp [parseNatAux, h, ih]
    · simp [parseNatAux, h]

theorem natReprAux_parse (fuel : Nat) :
    ∀ n acc, n ≤ fuel →
      parseNatAux acc (natReprAux fuel n) =
        some (acc * 10 ^ (natReprAux fuel n).length + n) := by
  induction fuel with
  | zero =>
    intro n acc hn
    have h0 : n = 0 := Nat.le_zero.mp hn
    subst h0
    have ht : (digitChar 0).toNat = 48 := by decide
    simp [natReprAux, parseNatAux, digitChar_isDigit 0 (by norm_num), ht]
  | succ fuel ih =>
    intro n acc hn
    by_cases h : n < 10
    · have ht := digitChar_toNat n h
      have hsub : 48 + n - 48 = n := by omega
      simp [natReprAux, if_pos h, parseNatAux, digitChar_isDigit n h, ht, hsub]
    · have hlt : n / 10 < n := Nat.div_lt_self (by omega) (by norm_num)
      have hle : n / 10 ≤ fuel := by omega
      have hd : isDigitCh (digitChar (n % 10)) = true :=
        digitChar_isDigit _ (Nat.mod_lt _ (by norm_num))
      have ht := digitChar_toNat (n % 10) (Nat.mod_lt _ (by norm_num))
      simp only [natReprAux, if_neg h, parseNatAux_append, ih (n / 10) acc hle,
        parseNatAux, hd, if_pos, List.length_append, List.length_singleton, ht]
      have hgen : ∀ X : Nat, (X + n / 10) * 10 + (48 + n % 10 - 48) = X * 10 + n := by
        intro X
        omega
      have harith : (acc * 10 ^ (natReprAux fuel (n / 10)).length + n / 10) * 10 +
          (48 + n % 10 - 48) =
          acc * 10 ^ ((natReprAux fuel (n / 10)).length + 1) + n := by
        rw [pow_succ, ← mul_assoc]
        exact hgen (acc * 10 ^ (natReprAux fuel (n / 10)).length)
      exact congrArg some harith

theorem natRepr_parse (n : Nat) : parseNatAux 0 (natRepr n) = some n := by
  have h := natReprAux_parse n n 0 le_rfl
  simpa [natRepr] using h

theorem parseInt_intRepr (n : Int) (h1 : -(2 ^ 63) ≤ n) (h2 : n < 2 ^ 63) :
    parseInt (intRepr n) = .ok n := by
  by_cases hn : n < 0
  · obtain ⟨d, ds, hds⟩ := List.exists_cons_of_ne_nil (natReprAux_ne_nil n.natAbs n.natAbs)
    have hrange : ¬(9223372036854775808 : Nat) < n.natAbs := by omega
    have hparse : parseNatAux 0 (d :: ds) = some n.natAbs := by
      rw [show (d :: ds) = natRepr n.natAbs from hds.symm]
      exact natRepr_parse _
    have hval : -|n| = n := by
      rw [abs_of_neg hn, neg_neg]
    simp [intRepr, if_pos hn, natRepr, hds, parseInt, hparse, hrange, hval,
      Int.natCast_natAbs]
  · obtain ⟨d, ds, hds⟩ := List.exists_cons_of_ne_nil (natReprAux_ne_nil n.natAbs n.natAbs)
    have hdd : isDigitCh d = true := by
      apply natReprAux_all_digits n.natAbs n.natAbs
      rw [hds]
      exact List.mem_cons_self _ _
    have hneg : (d = '-') = False := by
      simp only [eq_iff_iff, iff_false]
      intro he
      subst he
      revert hdd
      decide
    have hplus : (d = '+') = False := by
      simp only [eq_iff_iff, iff_false]
      intro he
      subst he
      revert hdd
      decide
    have hrange : ¬(9223372036854775808 : Nat) ≤ n.natAbs := by omega
    have hparse : parseNatAux 0 (d :: ds) = some n.natAbs := by
      rw [show (d :: ds) = natRepr n.natAbs from hds.symm]
      exact natRepr_parse _
    have hval : |n| = n := abs_of_nonneg (by omega)
    simp [intRepr, if_neg hn, natRepr, hds, parseInt, hneg, hplus, hparse, hrange, hval,
      Int.natCast_natAbs]

theorem intRepr_chars (n : Int) : ∀ c ∈ intRepr n, isDigitCh c = true ∨ c = '-' := by
  intro c hc
  by_cases hn : n < 0
  · simp only [intRepr, if_pos hn, List.mem_cons] at hc
    rcases hc with hc | hc
    · exact Or.inr hc
    · exact Or.inl (natReprAux_all_digits _ _ c hc)
  · simp only [intRepr, if_neg hn] at hc
    exact Or.inl (natReprAux_all_digits _ _ c hc)

theorem intRepr_ne_nil (n : Int) : intRepr n ≠ [] := by
  by_cases hn : n < 0 <;> simp [intRepr, hn, natRepr, natReprAux_ne_nil]

theorem intRepr_no_comma (n : Int) : ',' ∉ intRepr n := by
  intro hc
  rcases intRepr_chars n ',' hc with h | h
  · revert h
    decide
  · revert h
    decide

theorem intRepr_no_dq (n : Int) : dq ∉ intRepr n := by
  intro hc
  rcases intRepr_chars n dq hc with h | h
  · revert h
    decide
  · revert h
    decide

/-! ## Lemmas: base64 round-trips through decoding -/

theorem b64Char_mem (n : Nat) : b64Char n ∈ b64Alphabet := by
  by_cases h : n < 64
  · exact (by decide : ∀ m, m < 64 → b64Char m ∈ b64Alphabet) n h
  · have hlen : b64Alphabet.length ≤ n := by
      have hl : b64Alphabet.length = 64 := by decide
      omega
    rw [b64Char, List.getD_eq_default _ _ hlen]
    decide

theorem b64Val_b64Char : ∀ v, v < 64 → b64Val (b64Char v) = some v := by decide

theorem b64encode_chars (bs : List Nat) :
    ∀ c ∈ b64encode bs, c ∈ b64Alphabet ∨ c = '=' := by
  induction bs using b64encode.induct with
  | case1 => simp [b64encode]
  | case2 b1 =>
    intro c hc
    simp only [b64encode, List.mem_cons, List.not_mem_nil, or_false] at hc
    rcases hc with rfl | rfl | rfl | rfl
    · exact Or.inl (b64Char_mem _)
    · exact Or.inl (b64Char_mem _)
    · exact Or.inr rfl
    · exact Or.inr rfl
  | case3 b1 b2 =>
    intro c hc
    simp only [b64encode, List.mem_cons, List.not_mem_nil, or_false] at hc
    rcases hc with rfl | rfl | rfl | rfl
    · exact Or.inl (b64Char_mem _)
    · exact Or.inl (b64Char_mem _)
    · exact Or.inl (b64Char_mem _)
    · exact Or.inr rfl
  | case4 b1 b2 b3 rest ih =>
    intro c hc
    simp only [b64encode, List.mem_cons] at hc
    rcases hc with rfl | rfl | rfl | rfl | hc
    · exact Or.inl (b64Char_mem _)
    · exact Or.inl (b64Char_mem _)
    · exact Or.inl (b64Char_mem _)
    · exact Or.inl (b64Char_mem _)
    · exact ih c hc

theorem b64mem_not_crlf :
    ∀ c ∈ b64Alphabet, (!(decide (c.toNat = 13) || decide (c.toNat = 10))) = true := by
  decide

theorem b64Filter_encode (bs : List Nat) : b64Filter (b64encode bs) = b64encode bs := by
  rw [b64Filter, List.filter_eq_self]
  intro c hc
  rcases b64encode_chars bs c hc with h | h
  · exact b64mem_not_crlf c h
  · subst h
    decide

theorem b64AlphaChar_ne_pad {c : Char} (h : c ∈ b64Alphabet) : (c = '=') = False := by
  revert h
  revert c
  decide

theorem b64decodeGroups_encode (bs : List Nat) (hb : ∀ b ∈ bs, b < 256) :
    b64decodeGroups (b64encode bs) = .ok bs := by
  induction bs using b64encode.induct with
  | case1 => rfl
  | case2 b1 =>
    have h1 : b1 < 256 := hb b1 (by simp)
    have hv1 := b64Val_b64Char (b1 / 4) (by omega)
    have hv2 := b64Val_b64Char (b1 % 4 * 16) (by omega)
    have e1 : b1 / 4 * 4 + b1 % 4 * 16 / 16 = b1 := by omega
    simp [b64encode, b64decodeGroups, hv1, hv2, e1]
    try omega
  | case3 b1 b2 =>
    have h1 : b1 < 256 := hb b1 (by simp)
    have h2 : b2 < 256 := hb b2 (by simp)
    have hv1 := b64Val_b64Char (b1 / 4) (by omega)
    have hv2 := b64Val_b64Char (b1 % 4 * 16 + b2 / 16) (by omega)
    have hv3 := b64Val_b64Char (b2 % 16 * 4) (by omega)
    have hne : (b64Char (b2 % 16 * 4) = '=') = False := b64AlphaChar_ne_pad (b64Char_mem _)
    have e1 : b1 / 4 * 4 + (b1 % 4 * 16 + b2 / 16) / 16 = b1 := by omega
    have e2 : (b1 % 4 * 16 + b2 / 16) % 16 * 16 + b2 % 16 * 4 / 4 = b2 := by omega
    simp [b64encode, b64decodeGroups, hv1, hv2, hv3, hne, e1, e2]
    try omega
  | case4 b1 b2 b3 rest ih =>
    have h1 : b1 < 256 := hb b1 (by simp)
    have h2 : b2 < 256 := hb b2 (by simp)
    have h3 : b3 < 256 := hb b3 (by simp)
    have hrest : ∀ b ∈ rest, b < 256 := by
      intro b hbm
      exact hb b (by simp [hbm])
    have hv1 := b64Val_b64Char (b1 / 4) (by omega)
    have hv2 := b64Val_b64Char (b1 % 4 * 16 + b2 / 16) (by omega)
    have hv3 := b64Val_b64Char (b2 % 16 * 4 + b3 / 64) (by omega)
    have hv4 := b64Val_b64Char (b3 % 64) (by omega)
    have hne3 : (b64Char (b2 % 16 * 4 + b3 / 64) = '=') = False :=
      b64AlphaChar_ne_pad (b64Char_mem _)
    have hne4 : (b64Char (b3 % 64) = '=') = False := b64AlphaChar_ne_pad (b64Char_mem _)
    have e1 : b1 / 4 * 4 + (b1 % 4 * 16 + b2 / 16) / 16 = b1 := by omega
    have e2 : (b1 % 4 * 16 + b2 / 16) % 16 * 16 + (b2 % 16 * 4 + b3 / 64) / 4 = b2 := by
      omega
    have e3 : (b2 % 16 * 4 + b3 / 64) % 4 * 64 + b3 % 64 = b3 := by omega
    simp [b64encode, b64decodeGroups, hv1, hv2, hv3, hv4, hne3, hne4, ih hrest, e1, e2, e3]

theorem b64decode_encode (bs : List Nat) (hb : ∀ b ∈ bs, b < 256) :
    b64decode (b64encode bs) = .ok bs := by
  rw [b64decode, b64Filter_encode, b64decodeGroups_encode bs hb]

theorem b64encode_ne_nil {bs : List Nat} (h : bs ≠ []) : b64encode bs ≠ [] := by
  match bs with
  | [] => exact absurd rfl h
  | [b1] => simp [b64encode]
  | [b1, b2] => simp [b64encode]
  | b1 :: b2 :: b3 :: rest => simp [b64encode]

theorem b64encode_no_comma (bs : List Nat) : ',' ∉ b64encode bs := by
  intro hc
  rcases b64encode_chars bs ',' hc with h | h
  · revert h
    decide
  · revert h
    decide

theorem b64encode_no_dq (bs : List Nat) : dq ∉ b64encode bs := by
  intro hc
  rcases b64encode_chars bs dq hc with h | h
  · revert h
    decide
  · revert h
    decide

/-! ## Lemmas: parsing the Authorization value `BuildSignature` formats -/

theorem parseParamPiece (kc : Char) (kt v : Str) (hkc : isSpaceCh kc = false)
    (hkeq : '=' ∉ kc :: kt) :
    breakAtFirst '=' (trimSpace ((kc :: kt) ++ '=' :: dq :: (v ++ [dq]))) =
      some (kc :: kt, dq :: (v ++ [dq])) := by
  have hshape : (kc :: kt) ++ '=' :: dq :: (v ++ [dq]) =
      kc :: (kt ++ '=' :: dq :: v) ++ [dq] := by
    simp
  have htrim : trimSpace ((kc :: kt) ++ '=' :: dq :: (v ++ [dq])) =
      (kc :: kt) ++ '=' :: dq :: (v ++ [dq]) := by
    rw [hshape]
    rw [trimSpace_of_ends _ hkc (by decide : isSpaceCh dq = false)]
  rw [htrim]
  exact breakAtFirst_append _ hkeq

/-- The Authorization value, re-associated into the shape
`"Signature " ++ piece₁ ++ "," ++ piece₂ ++ ... ++ piece₆` that the
comma split consumes. -/
theorem authFmt_split (K S : Str) (c e : Int) :
    authFmt K c e S = str "Signature " ++
      ((str "keyId=\"" ++ (K ++ [dq])) ++ ',' ::
        (str " algorithm=\"ed25519\"" ++ ',' ::
          ((str " created=\"" ++ (intRepr c ++ [dq])) ++ ',' ::
            ((str " expires=\"" ++ (intRepr e ++ [dq])) ++ ',' ::
              (str " headers=\"(created) (expires) digest\"" ++ ',' ::
                (str " signature=\"" ++ (S ++ [dq]))))))) := by
  have e1 : str "Signature keyId=\"" = str "Signature " ++ str "keyId=\"" := rfl
  have e2 : str "\", algorithm=\"ed25519\", created=\"" =
      [dq] ++ ',' :: (str " algorithm=\"ed25519\"" ++ (',' :: str " created=\"")) := rfl
  have e3 : str "\", expires=\"" = [dq] ++ (',' :: str " expires=\"") := rfl
  have e4 : str "\", headers=\"(created) (expires) digest\", signature=\"" =
      [dq] ++ ',' :: (str " headers=\"(created) (expires) digest\""
        ++ (',' :: str " signature=\"")) := rfl
  rw [authFmt, e1, e2, e3, e4]
  simp

theorem no_comma_piece1 {K : Str} (hKc : ',' ∉ K) :
    ',' ∉ str "keyId=\"" ++ (K ++ [dq]) := by
  intro hc
  simp only [List.mem_append, List.mem_singleton] at hc
  rcases hc with hc | hc | hc
  · revert hc
    decide
  · exact hKc hc
  · revert hc
    decide

theorem no_comma_val {prefixT : Str} {v : Str} (hp : ',' ∉ prefixT) (hvc : ',' ∉ v) :
    ',' ∉ prefixT ++ (v ++ [dq]) := by
  intro hc
  simp only [List.mem_append, List.mem_singleton] at hc
  rcases hc with hc | hc | hc
  · exact hp hc
  · exact hvc hc
  · revert hc
    decide

theorem lookup_canon_keyId (K C E S : Str) :
    lookupLast (canonParams K C E S) (str "keyId") = K := by
  simp +decide [canonParams, lookupLast, containsKey]

theorem lookup_canon_algorithm (K C E S : Str) :
    lookupLast (canonParams K C E S) (str "algorithm") = str "ed25519" := by
  simp +decide [canonParams, lookupLast, containsKey]

theorem lookup_canon_created (K C E S : Str) :
    lookupLast (canonParams K C E S) (str "created") = C := by
  simp +decide [canonParams, lookupLast, containsKey]

theorem lookup_canon_expires (K C E S : Str) :
    lookupLast (canonParams K C E S) (str "expires") = E := by
  simp +decide [canonParams, lookupLast, containsKey]

theorem lookup_canon_headers (K C E S : Str) :
    lookupLast (canonParams K C E S) (str "headers") =
      str "(created) (expires) digest" := by
  simp +decide [canonParams, lookupLast, containsKey]

theorem lookup_canon_signature (K C E S : Str) :
    lookupLast (canonParams K C E S) (str "signature") = S := by
  simp +decide [canonParams, lookupLast, containsKey]

theorem checkRequired_canon (K C E S : Str) (hK : K ≠ []) (hC : C ≠ []) (hE : E ≠ [])
    (hS : S ≠ []) : checkRequired (canonParams K C E S) requiredKeys = .ok () := by
  simp only [requiredKeys, checkRequired, lookup_canon_keyId, lookup_canon_algorithm,
    lookup_canon_created, lookup_canon_expires, lookup_canon_headers,
    lookup_canon_signature]
  rw [if_neg hK, if_neg (by decide : ¬(str "ed25519" = [])), if_neg hC, if_neg hE,
    if_neg (by decide : ¬(str "(created) (expires) digest" = [])), if_neg hS]

/-- Parsing the Authorization value that `BuildSignature` produces
recovers exactly the six parameters, provided the key id and the encoded
signature contain no comma and no double quote. -/
theorem parseAuthorization_authFmt (K S : Str) (c e : Int)
    (hK : K ≠ []) (hKc : ',' ∉ K) (hKq : dq ∉ K)
    (hS : S ≠ []) (hSc : ',' ∉ S) (hSq : dq ∉ S) :
    parseAuthorization (authFmt K c e S) =
      .ok (canonParams K (intRepr c) (intRepr e) S) := by
  rw [authFmt_split]
  have h1 : ',' ∉ str "keyId=\"" ++ (K ++ [dq]) := no_comma_piece1 hKc
  have h2 : ',' ∉ str " algorithm=\"ed25519\"" := by decide
  have h3 : ',' ∉ str " created=\"" ++ (intRepr c ++ [dq]) :=
    no_comma_val (by decide) (intRepr_no_comma c)
  have h4 : ',' ∉ str " expires=\"" ++ (intRepr e ++ [dq]) :=
    no_comma_val (by decide) (intRepr_no_comma e)
  have h5 : ',' ∉ str " headers=\"(created) (expires) digest\"" := by decide
  have h6 : ',' ∉ str " signature=\"" ++ (S ++ [dq]) := no_comma_val (by decide) hSc
  have hsplit := splitChar_append
    (b := str " algorithm=\"ed25519\"" ++ ',' ::
      ((str " created=\"" ++ (intRepr c ++ [dq])) ++ ',' ::
        ((str " expires=\"" ++ (intRepr e ++ [dq])) ++ ',' ::
          (str " headers=\"(created) (expires) digest\"" ++ ',' ::
            (str " signature=\"" ++ (S ++ [dq])))))) h1
  have F1 : breakAtFirst '=' (trimSpace (str "keyId=\"" ++ (K ++ [dq]))) =
      some (str "keyId", dq :: (K ++ [dq])) := by
    have hre : str "keyId=\"" ++ (K ++ [dq]) =
        ('k' :: str "eyId") ++ '=' :: dq :: (K ++ [dq]) := by
      have : str "keyId=\"" = ('k' :: str "eyId") ++ ['=', dq] := rfl
      simp [this]
    rw [hre, parseParamPiece 'k' (str "eyId") K (by decide) (by decide)]
    rfl
  have F2 : breakAtFirst '=' (trimSpace (str " algorithm=\"ed25519\"")) =
      some (str "algorithm", str "\"ed25519\"") := by decide
  have F3 : breakAtFirst '=' (trimSpace (str " created=\"" ++ (intRepr c ++ [dq]))) =
      some (str "created", dq :: (intRepr c ++ [dq])) := by
    have hre : str " created=\"" ++ (intRepr c ++ [dq]) =
        ' ' :: (('c' :: str "reated") ++ '=' :: dq :: (intRepr c ++ [dq])) := by
      have : str " created=\"" = ' ' :: (('c' :: str "reated") ++ ['=', dq]) := rfl
      simp [this]
    rw [hre, trimSpace_cons_space,
      parseParamPiece 'c' (str "reated") (intRepr c) (by decide) (by decide)]
    rfl
  have F4 : breakAtFirst '=' (trimSpace (str " expires=\"" ++ (intRepr e ++ [dq]))) =
      some (str "expires", dq :: (intRepr e ++ [dq])) := by
    have hre : str " expires=\"" ++ (intRepr e ++ [dq]) =
        ' ' :: (('e' :: str "xpires") ++ '=' :: dq :: (intRepr e ++ [dq])) := by
      have : str " expires=\"" = ' ' :: (('e' :: str "xpires") ++ ['=', dq]) := rfl
      simp [this]
    rw [hre, trimSpace_cons_space,
      parseParamPiece 'e' (str "xpires") (intRepr e) (by decide) (by decide)]
    rfl
  have F5 : breakAtFirst '=' (trimSpace (str " headers=\"(created) (expires) digest\"")) =
      some (str "headers", str "\"(created) (expires) digest\"") := by decide
  have F6 : breakAtFirst '=' (trimSpace (str " signature=\"" ++ (S ++ [dq]))) =
      some (str "signature", dq :: (S ++ [dq])) := by
    have hre : str " signature=\"" ++ (S ++ [dq]) =
        ' ' :: (('s' :: str "ignature") ++ '=' :: dq :: (S ++ [dq])) := by
      have : str " signature=\"" = ' ' :: (('s' :: str "ignature") ++ ['=', dq]) := rfl
      simp [this]
    rw [hre, trimSpace_cons_space,
      parseParamPiece 's' (str "ignature") S (by decide) (by decide)]
    rfl
  have F1q : trimQuotes (dq :: (K ++ [dq])) = K := trimQuotes_wrap hK hKq
  have F2q : trimQuotes (str "\"ed25519\"") = str "ed25519" := by decide
  have F3q : trimQuotes (dq :: (intRepr c ++ [dq])) = intRepr c :=
    trimQuotes_wrap (intRepr_ne_nil c) (intRepr_no_dq c)
  have F4q : trimQuotes (dq :: (intRepr e ++ [dq])) = intRepr e :=
    trimQuotes_wrap (intRepr_ne_nil e) (intRepr_no_dq e)
  have F5q : trimQuotes (str "\"(created) (expires) digest\"") =
      str "(created) (expires) digest" := by decide
  have F6q : trimQuotes (dq :: (S ++ [dq])) = S := trimQuotes_wrap hS hSq
  have hck := checkRequired_canon K (intRepr c) (intRepr e) S hK (intRepr_ne_nil c)
    (intRepr_ne_nil e) hS
  unfold parseAuthorization
  rw [strStarts_self_append, dropStart_self_append, hsplit, splitChar_append _ h2,
    splitChar_append _ h3, splitChar_append _ h4, splitChar_append _ h5,
    splitChar_not_mem h6]
  rw [if_neg (show ¬((!true : Bool) = true) by decide)]
  simp only [parseParamsLoop, F1, F2, F3, F4, F5, F6, F1q, F2q, F3q, F4q, F5q, F6q]
  simp only [canonParams] at hck
  rw [hck]
  rfl

/-! ## Lemmas: BuildSignature and the VerifySignature stages -/

theorem BuildSignature_ok_elim {c : CryptoPrims} {body : List Nat} {keyID privB64 : Str}
    {created expires : Int} {sg : Signature}
    (h : BuildSignature c body keyID privB64 created expires = .ok sg) :
    keyID ≠ [] ∧ 0 < created ∧ created < expires ∧
      ∃ pkBytes, b64decode privB64 = .ok pkBytes ∧
        (pkBytes.length = 32 ∨ pkBytes.length = 64) ∧
        sg.Digest = str "SHA-256=" ++ b64encode (c.sha256 body) ∧
        sg.Authorization = authFmt keyID created expires
          (b64encode (c.edSign (buildPrivKey c pkBytes)
            (strBytes (signingStringFmt created expires
              (str "SHA-256=" ++ b64encode (c.sha256 body)))))) := by
  by_cases h1 : keyID = []
  · simp [BuildSignature, h1] at h
  by_cases h2 : created ≤ 0 ∨ expires ≤ 0 ∨ expires ≤ created
  · simp [BuildSignature, h1, h2] at h
  refine ⟨h1, by omega, by omega, ?_⟩
  rcases hdec : b64decode privB64 with e | pkBytes
  · simp [BuildSignature, h1, h2, hdec] at h
  refine ⟨pkBytes, rfl, ?_⟩
  by_cases l32 : pkBytes.length = 32
  · simp only [BuildSignature, if_neg h1, if_neg h2, hdec, if_pos l32] at h
    obtain rfl := Except.ok.inj h
    exact ⟨Or.inl l32, rfl, by simp [buildPrivKey, l32]⟩
  by_cases l64 : pkBytes.length = 64
  · simp only [BuildSignature, if_neg h1, if_neg h2, hdec, if_neg l32, if_pos l64] at h
    obtain rfl := Except.ok.inj h
    exact ⟨Or.inr l64, rfl, by simp [buildPrivKey, l32]⟩
  · simp [BuildSignature, h1, h2, hdec, l32, l64] at h

theorem verify_checks_pass (c : CryptoPrims) (sysNow : Int) (body : List Nat)
    (dh auth pkB64 : Str) (opts : VerificationOptions) (ps : List (Str × Str))
    (hauth : auth ≠ []) (hdh : dh ≠ []) (hpk : pkB64 ≠ [])
    (hparse : parseAuthorization auth = .ok ps)
    (hkid : ¬(opts.ExpectedKeyID ≠ [] ∧ lookupLast ps (str "keyId") ≠ opts.ExpectedKeyID))
    (halg : lookupLast ps (str "algorithm") = str "ed25519")
    (hhdr : lookupLast ps (str "headers") = str "(created) (expires) digest")
    (hdig : dh = str "SHA-256=" ++ b64encode (c.sha256 body)) :
    VerifySignature c sysNow body dh auth pkB64 opts =
      verifyTail c
        (match opts.Now with
          | some t => t
          | none => sysNow)
        dh (lookupLast ps (str "created")) (lookupLast ps (str "expires"))
        (lookupLast ps (str "signature")) pkB64 := by
  simp only [VerifySignature, if_neg hauth, if_neg hdh, if_neg hpk, hparse, if_neg hkid,
    if_neg (show ¬lookupLast ps (str "algorithm") ≠ str "ed25519" by simp [halg]),
    if_neg (show ¬lookupLast ps (str "headers") ≠ str "(created) (expires) digest" by
      simp [hhdr]),
    if_neg (show ¬dh ≠ str "SHA-256=" ++ b64encode (c.sha256 body) by simp [hdig])]

theorem verify_digest_mismatch (c : CryptoPrims) (sysNow : Int) (body : List Nat)
    (dh auth pkB64 : Str) (opts : VerificationOptions) (ps : List (Str × Str))
    (hauth : auth ≠ []) (hdh : dh ≠ []) (hpk : pkB64 ≠ [])
    (hparse : parseAuthorization auth = .ok ps)
    (hkid : ¬(opts.ExpectedKeyID ≠ [] ∧ lookupLast ps (str "keyId") ≠ opts.ExpectedKeyID))
    (halg : lookupLast ps (str "algorithm") = str "ed25519")
    (hhdr : lookupLast ps (str "headers") = str "(created) (expires) digest")
    (hdig : dh ≠ str "SHA-256=" ++ b64encode (c.sha256 body)) :
    VerifySignature c sysNow body dh auth pkB64 opts =
      .error (str "digest mismatch: expected "
        ++ (str "SHA-256=" ++ b64encode (c.sha256 body)) ++ str ", got " ++ dh) := by
  simp only [VerifySignature, if_neg hauth, if_neg hdh, if_neg hpk, hparse, if_neg hkid,
    if_neg (show ¬lookupLast ps (str "algorithm") ≠ str "ed25519" by simp [halg]),
    if_neg (show ¬lookupLast ps (str "headers") ≠ str "(created) (expires) digest" by
      simp [hhdr]),
    if_pos hdig]

theorem verifyTail_time (c : CryptoPrims) (now : Int) (dh Cs Es Ss pkB64 : Str)
    {created expires : Int} (hC : parseInt Cs = .ok created)
    (hE : parseInt Es = .ok expires) :
    verifyTail c now dh Cs Es Ss pkB64 =
      if now < created then
        .error (str "signature not yet valid: created " ++ intRepr created
          ++ str " > now " ++ intRepr now)
      else if now > expires then
        .error (str "signature expired: expires " ++ intRepr expires
          ++ str " < now " ++ intRepr now)
      else verifyKeyStage c pkB64 (signingStringFmt created expires dh) Ss := by
  simp only [verifyTail, hC, hE]

theorem verifyKeyStage_ok32 (c : CryptoPrims) (pkB64 ss sb64 : Str) (kb sigB : List Nat)
    (hdecpk : b64decode pkB64 = .ok kb) (hl : kb.length = 32)
    (hdecsig : b64decode sb64 = .ok sigB)
    (hv : c.edVerify kb (strBytes ss) sigB = true) :
    verifyKeyStage c pkB64 ss sb64 = .ok () := by
  simp only [verifyKeyStage, hdecpk, pickPublicKey, if_pos hl, hdecsig, hv, if_pos]

theorem verifyKeyStage_iff (c : CryptoPrims) (pkB64 ss sb64 : Str) (kb sigB : List Nat)
    (hdecpk : b64decode pkB64 = .ok kb) (hl : kb.length = 32 ∨ kb.length = 64)
    (hdecsig : b64decode sb64 = .ok sigB) :
    verifyKeyStage c pkB64 ss sb64 = .ok () ↔
      (c.edVerify (if kb.length = 32 then kb else kb.drop 32) (strBytes ss) sigB = true ∨
        (kb.length = 32 ∧ c.edVerify (c.edPubFromSeed kb) (strBytes ss) sigB = true)) := by
  by_cases h32 : kb.length = 32
  · simp only [verifyKeyStage, hdecpk, pickPublicKey, if_pos h32, hdecsig]
    by_cases hv : c.edVerify kb (strBytes ss) sigB = true
    · simp [hv, h32]
    · simp only [Bool.not_eq_true] at hv
      simp only [hv, if_neg]
      by_cases hv2 : c.edVerify (c.edPubFromSeed kb) (strBytes ss) sigB = true
      · simp [hv2, h32, hv]
      · simp only [Bool.not_eq_true] at hv2
        simp [hv, hv2, h32]
  · have h64 : kb.length = 64 := by
      rcases hl with h | h
      · exact absurd h h32
      · exact h
    simp only [verifyKeyStage, hdecpk, pickPublicKey, if_neg h32, if_pos h64, hdecsig]
    by_cases hv : c.edVerify (kb.drop 32) (strBytes ss) sigB = true
    · simp [hv, h32]
    · simp only [Bool.not_eq_true] at hv
      simp [hv, h32]

/-! ## The claims -/

/-- C6 (counterexample): the claim quantifies over every keyId, but with
the empty keyId and `created = expires = 0` `BuildSignature` returns the
keyID-required error, not the invalid-timing error the claim names. -/
theorem claim6_counterexample :
    BuildSignature cVerTrue [] (str "") (str "") 0 0 =
        .error (str "keyID is required for signature") ∧
      (Except.error (str "keyID is required for signature") :
          Except Str Signature) ≠
        .error (str "created and expires must be positive with expires > created") := by
  decide

/-- C6 (amended): for every non-empty keyId, `BuildSignature` fails with
the single combined invalid-timing error whenever
`created ≤ 0 ∨ expires ≤ 0 ∨ expires ≤ created` — in particular with
`created = expires = 0` — and never returns header values there. -/
theorem claim6_amended (c : CryptoPrims) (body : List Nat) (keyID privB64 : Str)
    (created expires : Int) (hK : keyID ≠ [])
    (h : created ≤ 0 ∨ expires ≤ 0 ∨ expires ≤ created) :
    BuildSignature c body keyID privB64 created expires =
      .error (str "created and expires must be positive with expires > created") := by
  simp [BuildSignature, hK, h]

theorem claim6_witness :
    ((str "k" ≠ []) ∧ ((0 : Int) ≤ 0 ∨ (0 : Int) ≤ 0 ∨ (0 : Int) ≤ 0)) ∧
      BuildSignature cVerTrue [] (str "k") (str "") 0 0 =
        .error (str "created and expires must be positive with expires > created") :=
  ⟨⟨by decide, by decide⟩,
    claim6_amended cVerTrue [] (str "k") (str "") 0 0 (by decide) (Or.inl (by decide))⟩

/-- C10: the parameter parser accepts unquoted values (quotes are
stripped when present but not required) — an all-unquoted Authorization
value parses and can verify successfully — and when the same key appears
twice the last occurrence silently wins. -/
theorem claim10_parser_laxness :
    VerifySignature cVerTrue 0 [] (str "SHA-256=AA==")
        (str "Signature keyId=k, algorithm=ed25519, created=1, expires=2, headers=\"(created) (expires) digest\", signature=AAAA")
        (b64encode (List.replicate 32 0)) ⟨[], some 1⟩ = .ok () ∧
      parseAuthorization
          (str "Signature keyId=\"k\", algorithm=\"rsa\", algorithm=\"ed25519\", created=\"1\", expires=\"2\", headers=\"(created) (expires) digest\", signature=\"AAAA\"") =
        .ok [(str "keyId", str "k"), (str "algorithm", str "rsa"),
          (str "algorithm", str "ed25519"), (str "created", str "1"),
          (str "expires", str "2"), (str "headers", str "(created) (expires) digest"),
          (str "signature", str "AAAA")] ∧
      lookupLast [(str "keyId", str "k"), (str "algorithm", str "rsa"),
          (str "algorithm", str "ed25519"), (str "created", str "1"),
          (str "expires", str "2"), (str "headers", str "(created) (expires) digest"),
          (str "signature", str "AAAA")] (str "algorithm") = str "ed25519" := by
  decide

/-- C5: whatever the key material and however the signature would
verify, `VerifySignature` never succeeds when the Authorization value
fails to parse (bad scheme, malformed pair, or a required parameter
absent or empty), or parses with an algorithm other than the literal
`ed25519`, or with a headers list other than the literal
`(created) (expires) digest`. -/
theorem claim5_parameter_strictness (c : CryptoPrims) (sysNow : Int) (body : List Nat)
    (dh auth pkB64 : Str) (opts : VerificationOptions)
    (h : (∃ e, parseAuthorization auth = .error e) ∨
      ∃ ps, parseAuthorization auth = .ok ps ∧
        (lookupLast ps (str "algorithm") ≠ str "ed25519" ∨
          lookupLast ps (str "headers") ≠ str "(created) (expires) digest")) :
    VerifySignature c sysNow body dh auth pkB64 opts ≠ .ok () := by
  intro hok
  simp only [VerifySignature] at hok
  by_cases hauth : auth = []
  · rw [if_pos hauth] at hok
    exact Except.noConfusion hok
  rw [if_neg hauth] at hok
  by_cases hdh : dh = []
  · rw [if_pos hdh] at hok
    exact Except.noConfusion hok
  rw [if_neg hdh] at hok
  by_cases hpk : pkB64 = []
  · rw [if_pos hpk] at hok
    exact Except.noConfusion hok
  rw [if_neg hpk] at hok
  rcases h with ⟨e, hpe⟩ | ⟨ps, hps, hbad⟩
  · simp only [hpe] at hok
    exact Except.noConfusion hok
  · simp only [hps] at hok
    by_cases hkid : opts.ExpectedKeyID ≠ [] ∧ lookupLast ps (str "keyId") ≠ opts.ExpectedKeyID
    · rw [if_pos hkid] at hok
      exact Except.noConfusion hok
    rw [if_neg hkid] at hok
    by_cases halg : lookupLast ps (str "algorithm") ≠ str "ed25519"
    · rw [if_pos halg] at hok
      exact Except.noConfusion hok
    rw [if_neg halg] at hok
    rcases hbad with hbad | hbad
    · exact absurd hbad halg
    · rw [if_pos hbad] at hok
      exact Except.noConfusion hok

theorem claim5_witness :
    ((∃ e, parseAuthorization
        (str "Signature keyId=\"k\", algorithm=\"rsa\", created=\"1\", expires=\"2\", headers=\"(created) (expires) digest\", signature=\"AAAA\"") = .error e) ∨
      ∃ ps, parseAuthorization
          (str "Signature keyId=\"k\", algorithm=\"rsa\", created=\"1\", expires=\"2\", headers=\"(created) (expires) digest\", signature=\"AAAA\"") = .ok ps ∧
        (lookupLast ps (str "algorithm") ≠ str "ed25519" ∨
          lookupLast ps (str "headers") ≠ str "(created) (expires) digest")) ∧
      VerifySignature cVerTrue 0 [] (str "SHA-256=AA==")
        (str "Signature keyId=\"k\", algorithm=\"rsa\", created=\"1\", expires=\"2\", headers=\"(created) (expires) digest\", signature=\"AAAA\"")
        (b64encode (List.replicate 32 0)) ⟨[], some 1⟩ ≠ .ok () := by
  have h : (∃ e, parseAuthorization
      (str "Signature keyId=\"k\", algorithm=\"rsa\", created=\"1\", expires=\"2\", headers=\"(created) (expires) digest\", signature=\"AAAA\"") = .error e) ∨
      ∃ ps, parseAuthorization
          (str "Signature keyId=\"k\", algorithm=\"rsa\", created=\"1\", expires=\"2\", headers=\"(created) (expires) digest\", signature=\"AAAA\"") = .ok ps ∧
        (lookupLast ps (str "algorithm") ≠ str "ed25519" ∨
          lookupLast ps (str "headers") ≠ str "(created) (expires) digest") :=
    Or.inr ⟨[(str "keyId", str "k"), (str "algorithm", str "rsa"), (str "created", str "1"),
      (str "expires", str "2"), (str "headers", str "(created) (expires) digest"),
      (str "signature", str "AAAA")], by decide, Or.inl (by decide)⟩
  exact ⟨h, claim5_parameter_strictness cVerTrue 0 [] (str "SHA-256=AA==") _
    (b64encode (List.replicate 32 0)) ⟨[], some 1⟩ h⟩

/-- C1 (counterexample): on a digest mismatch `VerifySignature` returns
the digest-mismatch error without attempting signature validation — the
outcome is the same error whether the verifier would accept every
signature or reject every signature, so the digest check does
short-circuit, contrary to the claim. -/
theorem claim1_counterexample :
    VerifySignature cVerTrue 0 [] (str "SHA-256=XXXX")
        (str "Signature keyId=\"k\", algorithm=\"ed25519\", created=\"1\", expires=\"2\", headers=\"(created) (expires) digest\", signature=\"AAAA\"")
        (b64encode (List.replicate 32 0)) ⟨[], some 1⟩ =
      .error (str "digest mismatch: expected SHA-256=AA==, got SHA-256=XXXX") ∧
    VerifySignature cVerFalse 0 [] (str "SHA-256=XXXX")
        (str "Signature keyId=\"k\", algorithm=\"ed25519\", created=\"1\", expires=\"2\", headers=\"(created) (expires) digest\", signature=\"AAAA\"")
        (b64encode (List.replicate 32 0)) ⟨[], some 1⟩ =
      .error (str "digest mismatch: expected SHA-256=AA==, got SHA-256=XXXX") := by
  decide

/-- C1 (amended): when the recomputed digest differs from the received
Digest header (and the earlier scheme/parameter checks passed),
`VerifySignature` short-circuits: it returns the digest-mismatch error —
naming expected and received values — immediately, without attempting
signature validation (the result is the same for every `edVerify`), and
before the timestamps are even parsed.  The digest-mismatch and
signature-mismatch errors remain distinct conditions. -/
theorem claim1_amended (c : CryptoPrims) (sysNow : Int) (body : List Nat)
    (dh auth pkB64 : Str) (opts : VerificationOptions) (ps : List (Str × Str))
    (hauth : auth ≠ []) (hdh : dh ≠ []) (hpk : pkB64 ≠ [])
    (hparse : parseAuthorization auth = .ok ps)
    (hkid : ¬(opts.ExpectedKeyID ≠ [] ∧ lookupLast ps (str "keyId") ≠ opts.ExpectedKeyID))
    (halg : lookupLast ps (str "algorithm") = str "ed25519")
    (hhdr : lookupLast ps (str "headers") = str "(created) (expires) digest")
    (hdig : dh ≠ str "SHA-256=" ++ b64encode (c.sha256 body)) :
    VerifySignature c sysNow body dh auth pkB64 opts =
        .error (str "digest mismatch: expected "
          ++ (str "SHA-256=" ++ b64encode (c.sha256 body)) ++ str ", got " ++ dh) ∧
      ∀ f, VerifySignature { c with edVerify := f } sysNow body dh auth pkB64 opts =
        .error (str "digest mismatch: expected "
          ++ (str "SHA-256=" ++ b64encode (c.sha256 body)) ++ str ", got " ++ dh) := by
  refine ⟨verify_digest_mismatch c sysNow body dh auth pkB64 opts ps hauth hdh hpk hparse
    hkid halg hhdr hdig, fun f => ?_⟩
  exact verify_digest_mismatch { c with edVerify := f } sysNow body dh auth pkB64 opts ps
    hauth hdh hpk hparse hkid halg hhdr hdig

theorem claim1_witness :
    (str "x" ≠ [] ∧
      parseAuthorization
          (str "Signature keyId=\"k\", algorithm=\"ed25519\", created=\"1\", expires=\"2\", headers=\"(created) (expires) digest\", signature=\"AAAA\"") =
        .ok (canonParams (str "k") (str "1") (str "2") (str "AAAA")) ∧
      str "x" ≠ str "SHA-256=" ++ b64encode (cVerFalse.sha256 [])) ∧
      VerifySignature cVerFalse 7 [] (str "x")
          (str "Signature keyId=\"k\", algorithm=\"ed25519\", created=\"1\", expires=\"2\", headers=\"(created) (expires) digest\", signature=\"AAAA\"")
          (str "p") ⟨[], none⟩ =
        .error (str "digest mismatch: expected "
          ++ (str "SHA-256=" ++ b64encode (cVerFalse.sha256 [])) ++ str ", got "
          ++ str "x") := by
  refine ⟨⟨by decide, by decide, by decide⟩, ?_⟩
  exact (claim1_amended cVerFalse 7 [] (str "x") _ (str "p") ⟨[], none⟩
    (canonParams (str "k") (str "1") (str "2") (str "AAAA")) (by decide) (by decide)
    (by decide) (by decide) (by decide) (by decide) (by decide) (by decide)).1

/-- C4 (counterexample): with parsed `created = 5`, `expires = 1` and
`now = 3` we have `now > expires`, yet the code fails with the
"not yet valid" error, not the "expired" one — the two "exactly when"
conditions of the claim overlap and the `now < created` check wins. -/
theorem claim4_counterexample :
    VerifySignature cVerTrue 0 [] (str "SHA-256=AA==")
        (str "Signature keyId=\"k\", algorithm=\"ed25519\", created=\"5\", expires=\"1\", headers=\"(created) (expires) digest\", signature=\"AAAA\"")
        (b64encode (List.replicate 32 0)) ⟨[], some 3⟩ =
      .error (str "signature not yet valid: created 5 > now 3") ∧ ((3 : Int) > 1) := by
  decide

/-- C4 (amended): once the earlier checks pass and the timestamps parse,
the time check is prioritised: verification fails with the distinct
"not yet valid" error exactly when `now < created`; otherwise it fails
with the distinct "expired" error exactly when `now > expires`; and it
proceeds to the key/signature stage exactly when
`created ≤ now ≤ expires`, both bounds inclusive. -/
theorem claim4_amended (c : CryptoPrims) (sysNow : Int) (body : List Nat)
    (dh auth pkB64 : Str) (opts : VerificationOptions) (ps : List (Str × Str))
    (created expires now : Int)
    (hauth : auth ≠ []) (hdh : dh ≠ []) (hpk : pkB64 ≠ [])
    (hparse : parseAuthorization auth = .ok ps)
    (hkid : ¬(opts.ExpectedKeyID ≠ [] ∧ lookupLast ps (str "keyId") ≠ opts.ExpectedKeyID))
    (halg : lookupLast ps (str "algorithm") = str "ed25519")
    (hhdr : lookupLast ps (str "headers") = str "(created) (expires) digest")
    (hdig : dh = str "SHA-256=" ++ b64encode (c.sha256 body))
    (hC : parseInt (lookupLast ps (str "created")) = .ok created)
    (hE : parseInt (lookupLast ps (str "expires")) = .ok expires)
    (hnow : (match opts.Now with
      | some t => t
      | none => sysNow) = now) :
    (now < created →
      VerifySignature c sysNow body dh auth pkB64 opts =
        .error (str "signature not yet valid: created " ++ intRepr created
          ++ str " > now " ++ intRepr now)) ∧
    (created ≤ now → now > expires →
      VerifySignature c sysNow body dh auth pkB64 opts =
        .error (str "signature expired: expires " ++ intRepr expires
          ++ str " < now " ++ intRepr now)) ∧
    (created ≤ now → now ≤ expires →
      VerifySignature c sysNow body dh auth pkB64 opts =
        verifyKeyStage c pkB64 (signingStringFmt created expires dh)
          (lookupLast ps (str "signature"))) := by
  have h0 := verify_checks_pass c sysNow body dh auth pkB64 opts ps hauth hdh hpk hparse
    hkid halg hhdr hdig
  rw [hnow] at h0
  rw [verifyTail_time c now dh _ _ _ _ hC hE] at h0
  refine ⟨fun h1 => ?_, fun h1 h2 => ?_, fun h1 h2 => ?_⟩
  · rw [h0, if_pos h1]
  · rw [h0, if_neg (by omega), if_pos h2]
  · rw [h0, if_neg (by omega), if_neg (by omega)]

theorem claim4_witness :
    (parseAuthorization
        (str "Signature keyId=\"k\", algorithm=\"ed25519\", created=\"1\", expires=\"2\", headers=\"(created) (expires) digest\", signature=\"AAAA\"") =
      .ok (canonParams (str "k") (str "1") (str "2") (str "AAAA")) ∧
      parseInt (lookupLast (canonParams (str "k") (str "1") (str "2") (str "AAAA"))
        (str "created")) = .ok 1 ∧
      parseInt (lookupLast (canonParams (str "k") (str "1") (str "2") (str "AAAA"))
        (str "expires")) = .ok 2) ∧
    ((1 : Int) < 1 →
      VerifySignature cVerTrue 0 [] (str "SHA-256=AA==")
          (str "Signature keyId=\"k\", algorithm=\"ed25519\", created=\"1\", expires=\"2\", headers=\"(created) (expires) digest\", signature=\"AAAA\"")
          (b64encode (List.replicate 32 0)) ⟨[], some 1⟩ =
        .error (str "signature not yet valid: created " ++ intRepr 1
          ++ str " > now " ++ intRepr 1)) ∧
    ((1 : Int) ≤ 1 → (1 : Int) > 2 →
      VerifySignature cVerTrue 0 [] (str "SHA-256=AA==")
          (str "Signature keyId=\"k\", algorithm=\"ed25519\", created=\"1\", expires=\"2\", headers=\"(created) (expires) digest\", signature=\"AAAA\"")
          (b64encode (List.replicate 32 0)) ⟨[], some 1⟩ =
        .error (str "signature expired: expires " ++ intRepr 2
          ++ str " < now " ++ intRepr 1)) ∧
    ((1 : Int) ≤ 1 → (1 : Int) ≤ 2 →
      VerifySignature cVerTrue 0 [] (str "SHA-256=AA==")
          (str "Signature keyId=\"k\", algorithm=\"ed25519\", created=\"1\", expires=\"2\", headers=\"(created) (expires) digest\", signature=\"AAAA\"")
          (b64encode (List.replicate 32 0)) ⟨[], some 1⟩ =
        verifyKeyStage cVerTrue (b64encode (List.replicate 32 0))
          (signingStringFmt 1 2 (str "SHA-256=AA=="))
          (lookupLast (canonParams (str "k") (str "1") (str "2") (str "AAAA"))
            (str "signature"))) :=
  ⟨⟨by decide, by decide, by decide⟩,
    claim4_amended cVerTrue 0 [] (str "SHA-256=AA==") _ (b64encode (List.replicate 32 0))
      ⟨[], some 1⟩ (canonParams (str "k") (str "1") (str "2") (str "AAAA")) 1 2 1
      (by decide) (by decide) (by decide) (by decide) (by decide) (by decide) (by decide)
      (by decide) (by decide) (by decide) (by decide)⟩

/-- C9: `VerifySignature` does not re-enforce the build-time window
invariant on the parsed timestamps: `created` and `expires` may be zero,
negative, or equal, and whenever they parse as base-10 integers and
`created ≤ now ≤ expires` holds (with the other checks passing and the
signature verifying), verification succeeds — e.g. with
`created = expires = now`. -/
theorem claim9_no_window_reenforcement (c : CryptoPrims) (sysNow : Int) (body : List Nat)
    (dh auth pkB64 : Str) (opts : VerificationOptions) (ps : List (Str × Str))
    (created expires now : Int) (kb sigB : List Nat)
    (hauth : auth ≠ []) (hdh : dh ≠ []) (hpk : pkB64 ≠ [])
    (hparse : parseAuthorization auth = .ok ps)
    (hkid : ¬(opts.ExpectedKeyID ≠ [] ∧ lookupLast ps (str "keyId") ≠ opts.ExpectedKeyID))
    (halg : lookupLast ps (str "algorithm") = str "ed25519")
    (hhdr : lookupLast ps (str "headers") = str "(created) (expires) digest")
    (hdig : dh = str "SHA-256=" ++ b64encode (c.sha256 body))
    (hC : parseInt (lookupLast ps (str "created")) = .ok created)
    (hE : parseInt (lookupLast ps (str "expires")) = .ok expires)
    (hnow : (match opts.Now with
      | some t => t
      | none => sysNow) = now)
    (h1 : created ≤ now) (h2 : now ≤ expires)
    (hdecpk : b64decode pkB64 = .ok kb) (hl : kb.length = 32)
    (hdecsig : b64decode (lookupLast ps (str "signature")) = .ok sigB)
    (hv : c.edVerify kb (strBytes (signingStringFmt created expires dh)) sigB = true) :
    VerifySignature c sysNow body dh auth pkB64 opts = .ok () := by
  have h0 := verify_checks_pass c sysNow body dh auth pkB64 opts ps hauth hdh hpk hparse
    hkid halg hhdr hdig
  rw [hnow] at h0
  rw [h0, verifyTail_time c now dh _ _ _ _ hC hE, if_neg (by omega), if_neg (by omega)]
  exact verifyKeyStage_ok32 c pkB64 _ _ kb sigB hdecpk hl hdecsig hv

theorem claim9_witness :
    (parseAuthorization
        (str "Signature keyId=\"k\", algorithm=\"ed25519\", created=\"0\", expires=\"0\", headers=\"(created) (expires) digest\", signature=\"AAAA\"") =
      .ok (canonParams (str "k") (str "0") (str "0") (str "AAAA")) ∧
      parseInt (str "0") = .ok 0 ∧ ((0 : Int) ≤ 0) ∧
      b64decode (b64encode (List.replicate 32 0)) = .ok (List.replicate 32 0)) ∧
    VerifySignature cVerTrue 0 [] (str "SHA-256=AA==")
        (str "Signature keyId=\"k\", algorithm=\"ed25519\", created=\"0\", expires=\"0\", headers=\"(created) (expires) digest\", signature=\"AAAA\"")
        (b64encode (List.replicate 32 0)) ⟨[], some 0⟩ = .ok () :=
  ⟨⟨by decide, by decide, by decide, by decide⟩,
    claim9_no_window_reenforcement cVerTrue 0 [] (str "SHA-256=AA==") _
      (b64encode (List.replicate 32 0)) ⟨[], some 0⟩
      (canonParams (str "k") (str "0") (str "0") (str "AAAA")) 0 0 0
      (List.replicate 32 0) [0, 0, 0]
      (by decide) (by decide) (by decide) (by decide) (by decide) (by decide) (by decide)
      (by decide) (by decide) (by decide) (by decide) (by decide) (by decide)
      (by decide) (by decide) (by decide) (by decide)⟩

theorem authFmt_ne_nil (K : Str) (c e : Int) (S : Str) : authFmt K c e S ≠ [] := by
  rw [authFmt_split]
  intro h
  rcases List.append_eq_nil.mp h with ⟨h1, -⟩
  revert h1
  decide

theorem digestFmt_ne_nil (c : CryptoPrims) (body : List Nat) :
    str "SHA-256=" ++ b64encode (c.sha256 body) ≠ [] := by
  intro h
  rcases List.append_eq_nil.mp h with ⟨h1, -⟩
  revert h1
  decide

/-- C7: in the final stage (all earlier checks passing, a decoded key of
an accepted length, and a decoded signature), verification succeeds
exactly when the direct interpretation of the key verifies or — only for
32-byte key material — the retry against the seed-derived public key
verifies; when the direct interpretation succeeds the retry derivation
is never consulted; and for 64-byte key material the outcome never
depends on the seed-derivation function at all. -/
theorem claim7_seed_retry (c : CryptoPrims) (sysNow : Int) (body : List Nat)
    (dh auth pkB64 : Str) (opts : VerificationOptions) (ps : List (Str × Str))
    (created expires now : Int) (kb sigB : List Nat)
    (hauth : auth ≠ []) (hdh : dh ≠ []) (hpk : pkB64 ≠ [])
    (hparse : parseAuthorization auth = .ok ps)
    (hkid : ¬(opts.ExpectedKeyID ≠ [] ∧ lookupLast ps (str "keyId") ≠ opts.ExpectedKeyID))
    (halg : lookupLast ps (str "algorithm") = str "ed25519")
    (hhdr : lookupLast ps (str "headers") = str "(created) (expires) digest")
    (hdig : dh = str "SHA-256=" ++ b64encode (c.sha256 body))
    (hC : parseInt (lookupLast ps (str "created")) = .ok created)
    (hE : parseInt (lookupLast ps (str "expires")) = .ok expires)
    (hnow : (match opts.Now with
      | some t => t
      | none => sysNow) = now)
    (h1 : created ≤ now) (h2 : now ≤ expires)
    (hdecpk : b64decode pkB64 = .ok kb) (hl : kb.length = 32 ∨ kb.length = 64)
    (hdecsig : b64decode (lookupLast ps (str "signature")) = .ok sigB) :
    (VerifySignature c sysNow body dh auth pkB64 opts = .ok () ↔
      (c.edVerify (if kb.length = 32 then kb else kb.drop 32)
          (strBytes (signingStringFmt created expires dh)) sigB = true ∨
        (kb.length = 32 ∧
          c.edVerify (c.edPubFromSeed kb)
            (strBytes (signingStringFmt created expires dh)) sigB = true))) ∧
    (c.edVerify (if kb.length = 32 then kb else kb.drop 32)
        (strBytes (signingStringFmt created expires dh)) sigB = true →
      ∀ g, VerifySignature { c with edPubFromSeed := g } sysNow body dh auth pkB64 opts =
        .ok ()) ∧
    (kb.length = 64 →
      ∀ g, VerifySignature { c with edPubFromSeed := g } sysNow body dh auth pkB64 opts =
        VerifySignature c sysNow body dh auth pkB64 opts) := by
  have h0 := verify_checks_pass c sysNow body dh auth pkB64 opts ps hauth hdh hpk hparse
    hkid halg hhdr hdig
  rw [hnow] at h0
  rw [verifyTail_time c now dh _ _ _ _ hC hE, if_neg (by omega), if_neg (by omega)] at h0
  refine ⟨?_, ?_, ?_⟩
  · rw [h0]
    exact verifyKeyStage_iff c pkB64 _ _ kb sigB hdecpk hl hdecsig
  · intro hv g
    have h0g := verify_checks_pass { c with edPubFromSeed := g } sysNow body dh auth pkB64
      opts ps hauth hdh hpk hparse hkid halg hhdr hdig
    rw [hnow] at h0g
    rw [verifyTail_time _ now dh _ _ _ _ hC hE, if_neg (by omega), if_neg (by omega)]
      at h0g
    rw [h0g]
    exact (verifyKeyStage_iff { c with edPubFromSeed := g } pkB64 _ _ kb sigB hdecpk hl
      hdecsig).mpr (Or.inl hv)
  · intro h64 g
    have h0g := verify_checks_pass { c with edPubFromSeed := g } sysNow body dh auth pkB64
      opts ps hauth hdh hpk hparse hkid halg hhdr hdig
    rw [hnow] at h0g
    rw [verifyTail_time _ now dh _ _ _ _ hC hE, if_neg (by omega), if_neg (by omega)]
      at h0g
    rw [h0g, h0]
    simp [verifyKeyStage, hdecpk, pickPublicKey, h64, hdecsig]

theorem claim7_witness :
    (parseAuthorization
        (str "Signature keyId=\"k\", algorithm=\"ed25519\", created=\"1\", expires=\"2\", headers=\"(created) (expires) digest\", signature=\"AAAA\"") =
      .ok (canonParams (str "k") (str "1") (str "2") (str "AAAA")) ∧
      b64decode (b64encode (List.replicate 32 0)) = .ok (List.replicate 32 0) ∧
      (List.replicate 32 0 : List Nat).length = 32) ∧
    (VerifySignature cVerFalse 0 [] (str "SHA-256=AA==")
        (str "Signature keyId=\"k\", algorithm=\"ed25519\", created=\"1\", expires=\"2\", headers=\"(created) (expires) digest\", signature=\"AAAA\"")
        (b64encode (List.replicate 32 0)) ⟨[], some 1⟩ = .ok () ↔
      (cVerFalse.edVerify
          (if (List.replicate 32 0 : List Nat).length = 32 then List.replicate 32 0
            else (List.replicate 32 0 : List Nat).drop 32)
          (strBytes (signingStringFmt 1 2 (str "SHA-256=AA=="))) [0, 0, 0] = true ∨
        ((List.replicate 32 0 : List Nat).length = 32 ∧
          cVerFalse.edVerify (cVerFalse.edPubFromSeed (List.replicate 32 0))
            (strBytes (signingStringFmt 1 2 (str "SHA-256=AA=="))) [0, 0, 0] = true))) ∧
    (cVerFalse.edVerify
        (if (List.replicate 32 0 : List Nat).length = 32 then List.replicate 32 0
          else (List.replicate 32 0 : List Nat).drop 32)
        (strBytes (signingStringFmt 1 2 (str "SHA-256=AA=="))) [0, 0, 0] = true →
      ∀ g, VerifySignature { cVerFalse with edPubFromSeed := g } 0 [] (str "SHA-256=AA==")
        (str "Signature keyId=\"k\", algorithm=\"ed25519\", created=\"1\", expires=\"2\", headers=\"(created) (expires) digest\", signature=\"AAAA\"")
        (b64encode (List.replicate 32 0)) ⟨[], some 1⟩ = .ok ()) ∧
    ((List.replicate 32 0 : List Nat).length = 64 →
      ∀ g, VerifySignature { cVerFalse with edPubFromSeed := g } 0 [] (str "SHA-256=AA==")
          (str "Signature keyId=\"k\", algorithm=\"ed25519\", created=\"1\", expires=\"2\", headers=\"(created) (expires) digest\", signature=\"AAAA\"")
          (b64encode (List.replicate 32 0)) ⟨[], some 1⟩ =
        VerifySignature cVerFalse 0 [] (str "SHA-256=AA==")
          (str "Signature keyId=\"k\", algorithm=\"ed25519\", created=\"1\", expires=\"2\", headers=\"(created) (expires) digest\", signature=\"AAAA\"")
          (b64encode (List.replicate 32 0)) ⟨[], some 1⟩) :=
  ⟨⟨by decide, by decide, by decide⟩,
    claim7_seed_retry cVerFalse 0 [] (str "SHA-256=AA==") _
      (b64encode (List.replicate 32 0)) ⟨[], some 1⟩
      (canonParams (str "k") (str "1") (str "2") (str "AAAA")) 1 2 1
      (List.replicate 32 0) [0, 0, 0]
      (by decide) (by decide) (by decide) (by decide) (by decide) (by decide) (by decide)
      (by decide) (by decide) (by decide) (by decide) (by decide) (by decide)
      (by decide) (Or.inl (by decide)) (by decide)⟩

theorem signingStringFmt_eq_spec (cr ex : Int) (d : Str) :
    signingStringFmt cr ex d = specSigningString cr ex d := by
  simp [signingStringFmt, specSigningString]

/-- C8: the Digest header value `BuildSignature` emits (and
`VerifySignature` recomputes and compares against) is exactly
`"SHA-256=" ++ base64(sha256 body)` with the standard padded alphabet;
the string signed on the sign path is exactly the spec's three
newline-joined lines over the emitted digest; and the signing string the
verify path reconstructs (`signingStringFmt created expires
digestHeader`, over the received digest header) is exactly that same
three-line format. -/
theorem claim8_wire_format (c : CryptoPrims) (body : List Nat) (keyID privB64 : Str)
    (created expires : Int) (sg : Signature)
    (hbuild : BuildSignature c body keyID privB64 created expires = .ok sg) :
    sg.Digest = str "SHA-256=" ++ b64encode (c.sha256 body) ∧
    (∃ pkBytes, b64decode privB64 = .ok pkBytes ∧
      sg.Authorization = authFmt keyID created expires
        (b64encode (c.edSign (buildPrivKey c pkBytes)
          (strBytes (specSigningString created expires sg.Digest))))) ∧
    (∀ cr ex d, signingStringFmt cr ex d = specSigningString cr ex d) := by
  obtain ⟨-, -, -, pkBytes, hdec, -, hD, hA⟩ := BuildSignature_ok_elim hbuild
  refine ⟨hD, ⟨pkBytes, hdec, ?_⟩, fun cr ex d => signingStringFmt_eq_spec cr ex d⟩
  rw [hD, ← signingStringFmt_eq_spec]
  exact hA

set_option maxRecDepth 4000 in
theorem claim8_witness :
    (BuildSignature cVerTrue [] (str "k") (b64encode (List.replicate 32 0)) 1 2 =
      .ok ⟨str "Signature keyId=\"k\", algorithm=\"ed25519\", created=\"1\", expires=\"2\", headers=\"(created) (expires) digest\", signature=\"AAAAAAAAAAAAAAAAAAAAAAAAAAAAAAAAAAAAAAAAAAAAAAAAAAAAAAAAAAAAAAAAAAAAAAAAAAAAAAAAAAAAAA==\"",
        str "SHA-256=AA=="⟩) ∧
    ((str "SHA-256=AA==" : Str) =
        str "SHA-256=" ++ b64encode (cVerTrue.sha256 []) ∧
      (∃ pkBytes, b64decode (b64encode (List.replicate 32 0)) = .ok pkBytes ∧
        (str "Signature keyId=\"k\", algorithm=\"ed25519\", created=\"1\", expires=\"2\", headers=\"(created) (expires) digest\", signature=\"AAAAAAAAAAAAAAAAAAAAAAAAAAAAAAAAAAAAAAAAAAAAAAAAAAAAAAAAAAAAAAAAAAAAAAAAAAAAAAAAAAAAAA==\"" : Str) =
          authFmt (str "k") 1 2
            (b64encode (cVerTrue.edSign (buildPrivKey cVerTrue pkBytes)
              (strBytes (specSigningString 1 2 (str "SHA-256=AA==")))))) ∧
      (∀ cr ex d, signingStringFmt cr ex d = specSigningString cr ex d)) := by
  have hb : BuildSignature cVerTrue [] (str "k") (b64encode (List.replicate 32 0)) 1 2 =
      .ok ⟨str "Signature keyId=\"k\", algorithm=\"ed25519\", created=\"1\", expires=\"2\", headers=\"(created) (expires) digest\", signature=\"AAAAAAAAAAAAAAAAAAAAAAAAAAAAAAAAAAAAAAAAAAAAAAAAAAAAAAAAAAAAAAAAAAAAAAAAAAAAAAAAAAAAAA==\"",
        str "SHA-256=AA=="⟩ := by decide
  exact ⟨hb, claim8_wire_format cVerTrue [] (str "k") (b64encode (List.replicate 32 0))
    1 2 _ hb⟩

set_option maxRecDepth 4000 in
/-- C2 (counterexample): the claim quantifies over every keyId, but a
keyId containing a comma (here the one-character keyId `,`) builds
successfully and then fails verification — the comma split shreds the
`keyId=","` parameter, leaving a fragment without `=` — so round-trip
fails as stated. -/
theorem claim2_counterexample :
    BuildSignature cVerTrue [] (str ",") (b64encode (List.replicate 32 0)) 1 2 =
      .ok ⟨str "Signature keyId=\",\", algorithm=\"ed25519\", created=\"1\", expires=\"2\", headers=\"(created) (expires) digest\", signature=\"AAAAAAAAAAAAAAAAAAAAAAAAAAAAAAAAAAAAAAAAAAAAAAAAAAAAAAAAAAAAAAAAAAAAAAAAAAAAAAAAAAAAAA==\"",
        str "SHA-256=AA=="⟩ ∧
    VerifySignature cVerTrue 0 []
        (str "SHA-256=AA==")
        (str "Signature keyId=\",\", algorithm=\"ed25519\", created=\"1\", expires=\"2\", headers=\"(created) (expires) digest\", signature=\"AAAAAAAAAAAAAAAAAAAAAAAAAAAAAAAAAAAAAAAAAAAAAAAAAAAAAAAAAAAAAAAAAAAAAAAAAAAAAAAAAAAAAA==\"")
        (b64encode (publicKeyOf cVerTrue (List.replicate 32 0))) ⟨[], some 2⟩ =
      .error (str "invalid param: \"") := by
  decide

/-- C2 (amended): for every payload, every keyId containing neither a
comma nor a double quote, every valid timing window within the int64
domain, and every key pair for which the Ed25519 primitives behave as
Go's do on the relevant inputs (32-byte public half with byte values,
well-formed signature bytes, and `edVerify` accepting the signature just
produced by `edSign`), a successful `BuildSignature` round-trips:
`VerifySignature` at `now = created + 1` against `publicKeyOf`
(the derived public half) succeeds. -/
theorem claim2_roundtrip (c : CryptoPrims) (body : List Nat) (keyID privB64 : Str)
    (created expires : Int) (sg : Signature) (pkBytes : List Nat)
    (hKc : ',' ∉ keyID) (hKq : dq ∉ keyID)
    (hex : expires < 2 ^ 63)
    (hbuild : BuildSignature c body keyID privB64 created expires = .ok sg)
    (hdec : b64decode privB64 = .ok pkBytes)
    (hplen : (publicKeyOf c pkBytes).length = 32)
    (hpbytes : ∀ b ∈ publicKeyOf c pkBytes, b < 256)
    (hsne : c.edSign (buildPrivKey c pkBytes)
      (strBytes (signingStringFmt created expires
        (str "SHA-256=" ++ b64encode (c.sha256 body)))) ≠ [])
    (hsbytes : ∀ b ∈ c.edSign (buildPrivKey c pkBytes)
      (strBytes (signingStringFmt created expires
        (str "SHA-256=" ++ b64encode (c.sha256 body)))), b < 256)
    (hver : c.edVerify (publicKeyOf c pkBytes)
      (strBytes (signingStringFmt created expires
        (str "SHA-256=" ++ b64encode (c.sha256 body))))
      (c.edSign (buildPrivKey c pkBytes)
        (strBytes (signingStringFmt created expires
          (str "SHA-256=" ++ b64encode (c.sha256 body))))) = true) :
    VerifySignature c 0 body sg.Digest sg.Authorization
      (b64encode (publicKeyOf c pkBytes)) ⟨[], some (created + 1)⟩ = .ok () := by
  obtain ⟨hK, hc0, hce, pkBytes2, hdec2, -, hD, hA⟩ := BuildSignature_ok_elim hbuild
  rw [hdec] at hdec2
  obtain rfl := Except.ok.inj hdec2
  have hS : b64encode (c.edSign (buildPrivKey c pkBytes)
      (strBytes (signingStringFmt created expires
        (str "SHA-256=" ++ b64encode (c.sha256 body))))) ≠ [] := b64encode_ne_nil hsne
  have hparse := parseAuthorization_authFmt keyID
    (b64encode (c.edSign (buildPrivKey c pkBytes)
      (strBytes (signingStringFmt created expires
        (str "SHA-256=" ++ b64encode (c.sha256 body)))))) created expires hK hKc hKq hS
    (b64encode_no_comma _) (b64encode_no_dq _)
  have hpubne : publicKeyOf c pkBytes ≠ [] := by
    intro h
    rw [h] at hplen
    simp at hplen
  rw [hA, hD]
  have h0 := verify_checks_pass c 0 body
    (str "SHA-256=" ++ b64encode (c.sha256 body))
    (authFmt keyID created expires
      (b64encode (c.edSign (buildPrivKey c pkBytes)
        (strBytes (signingStringFmt created expires
          (str "SHA-256=" ++ b64encode (c.sha256 body)))))))
    (b64encode (publicKeyOf c pkBytes)) ⟨[], some (created + 1)⟩ _
    (authFmt_ne_nil _ _ _ _) (digestFmt_ne_nil c body)
    (b64encode_ne_nil hpubne) hparse
    (by
      intro hcon
      exact hcon.1 rfl)
    (lookup_canon_algorithm _ _ _ _) (lookup_canon_headers _ _ _ _) rfl
  rw [show (match (⟨[], some (created + 1)⟩ : VerificationOptions).Now with
    | some t => t
    | none => (0 : Int)) = created + 1 from rfl] at h0
  rw [h0]
  have hC : parseInt (lookupLast (canonParams keyID (intRepr created) (intRepr expires)
      (b64encode (c.edSign (buildPrivKey c pkBytes)
        (strBytes (signingStringFmt created expires
          (str "SHA-256=" ++ b64encode (c.sha256 body)))))))
      (str "created")) = .ok created := by
    rw [lookup_canon_created]
    exact parseInt_intRepr created (by omega) (by omega)
  have hE : parseInt (lookupLast (canonParams keyID (intRepr created) (intRepr expires)
      (b64encode (c.edSign (buildPrivKey c pkBytes)
        (strBytes (signingStringFmt created expires
          (str "SHA-256=" ++ b64encode (c.sha256 body)))))))
      (str "expires")) = .ok expires := by
    rw [lookup_canon_expires]
    exact parseInt_intRepr expires (by omega) (by omega)
  rw [verifyTail_time c (created + 1) _ _ _ _ _ hC hE, if_neg (by omega),
    if_neg (by omega)]
  apply verifyKeyStage_ok32 c _ _ _ (publicKeyOf c pkBytes)
    (c.edSign (buildPrivKey c pkBytes)
      (strBytes (signingStringFmt created expires
        (str "SHA-256=" ++ b64encode (c.sha256 body)))))
    (b64decode_encode _ hpbytes) hplen
  · rw [lookup_canon_signature]
    exact b64decode_encode _ hsbytes
  · exact hver

set_option maxRecDepth 4000 in
theorem claim2_witness :
    ((',' ∉ str "k") ∧ (dq ∉ str "k") ∧ ((2 : Int) < 2 ^ 63) ∧
      BuildSignature cVerTrue [] (str "k") (b64encode (List.replicate 32 0)) 1 2 =
        .ok ⟨str "Signature keyId=\"k\", algorithm=\"ed25519\", created=\"1\", expires=\"2\", headers=\"(created) (expires) digest\", signature=\"AAAAAAAAAAAAAAAAAAAAAAAAAAAAAAAAAAAAAAAAAAAAAAAAAAAAAAAAAAAAAAAAAAAAAAAAAAAAAAAAAAAAAA==\"",
          str "SHA-256=AA=="⟩ ∧
      b64decode (b64encode (List.replicate 32 0)) = .ok (List.replicate 32 0) ∧
      (publicKeyOf cVerTrue (List.replicate 32 0)).length = 32) ∧
    VerifySignature cVerTrue 0 []
      (Signature.Digest ⟨str "Signature keyId=\"k\", algorithm=\"ed25519\", created=\"1\", expires=\"2\", headers=\"(created) (expires) digest\", signature=\"AAAAAAAAAAAAAAAAAAAAAAAAAAAAAAAAAAAAAAAAAAAAAAAAAAAAAAAAAAAAAAAAAAAAAAAAAAAAAAAAAAAAAA==\"",
        str "SHA-256=AA=="⟩)
      (Signature.Authorization ⟨str "Signature keyId=\"k\", algorithm=\"ed25519\", created=\"1\", expires=\"2\", headers=\"(created) (expires) digest\", signature=\"AAAAAAAAAAAAAAAAAAAAAAAAAAAAAAAAAAAAAAAAAAAAAAAAAAAAAAAAAAAAAAAAAAAAAAAAAAAAAAAAAAAAAA==\"",
        str "SHA-256=AA=="⟩)
      (b64encode (publicKeyOf cVerTrue (List.replicate 32 0))) ⟨[], some (1 + 1)⟩ =
      .ok () := by
  refine ⟨⟨by decide, by decide, by decide, by decide, by decide, by decide⟩, ?_⟩
  exact claim2_roundtrip cVerTrue [] (str "k") (b64encode (List.replicate 32 0)) 1 2 _
    (List.replicate 32 0) (by decide) (by decide) (by decide) (by decide) (by decide)
    (by decide) (by decide) (by decide) (by decide) (by decide)

set_option maxRecDepth 1000000 in
set_option maxHeartbeats 4000000 in
/-- C3: on the spec's example inputs — the given base64 seed, the body
`{"hello":"world"}`, keyId `example-bap|1|ed25519`, created 1700000000,
expires 1700000600 — `BuildSignature` with the concrete SHA-256/Ed25519
implementation returns, byte for byte, exactly the Digest and
Authorization values the spec quotes. -/
theorem claim3_example_vector :
    BuildSignature realCrypto exampleBody exampleKeyID exampleSeedB64
      1700000000 1700000600 = .ok ⟨exampleAuth, exampleDigest⟩ := by
  decide

end ONDC
